import Mathlib

/-!
Verification development for the Weatherbot repository: a weather MCP tool
server (`weather.py`) and a multi-provider LLM client (`client.py`).

The embedding mirrors the Python source.  JSON values and the Python values
flowing through the client are modelled by `JVal`; Python runtime errors
(KeyError, TypeError, IndexError, AttributeError, ...) are modelled by the
`Except String` monad, where `.error` means an uncaught Python exception
propagating to the caller.  Network and stdlib boundaries (HTTP requests,
`json.loads`, `float(...)` parsing) are oracle parameters supplied by the
caller, so every theorem quantifies over their behaviour.
-/

set_option autoImplicit false

namespace Weatherbot

/-- One element of an MCP `CallToolResult.content` list, as observed by
`client.py` via `getattr(item, "text", str(item))`: either the SDK object
exposes a `.text` attribute, or only its `str(...)` rendering is available. -/
inductive MCPItem where
  | withText (text : String)
  | other (rendering : String)
  deriving DecidableEq

/-- The `result.content` value returned by `session.call_tool`, as observed by
`client.py` (lines 448-455): a list of items, a single object with a `.text`
attribute, or an arbitrary object with only a `str(...)` rendering. -/
inductive MCPContent where
  | items (l : List MCPItem)
  | textObj (text : String)
  | other (rendering : String)
  deriving DecidableEq

/-- JSON-compatible Python values (plus `sdk` for raw MCP SDK content objects
that `_process_with_claude` stores verbatim in a message). -/
inductive JVal where
  | null
  | bool (b : Bool)
  | int (n : Int)
  | str (s : String)
  | list (xs : List JVal)
  | dict (fs : List (String × JVal))
  | sdk (c : MCPContent)

/-- Python truthiness (`if x:`) for the modelled values.  An `sdk` list object
is truthy iff non-empty; other SDK objects are truthy. -/
def truthy : JVal → Bool
  | .null => false
  | .bool b => b
  | .int n => n != 0
  | .str s => s ≠ ""
  | .list xs => !xs.isEmpty
  | .dict fs => !fs.isEmpty
  | .sdk (.items l) => !l.isEmpty
  | .sdk _ => true

/-- First-occurrence lookup in a Python dict modelled as an ordered
association list. -/
def dictLookup (fs : List (String × JVal)) (k : String) : Option JVal :=
  match fs with
  | [] => none
  | (k', v) :: t => if k' = k then some v else dictLookup t k

/-- `d.pop(k)` preceded by `if k in d`: remove all bindings of `k`
(a Python dict has at most one). -/
def dictRemove (fs : List (String × JVal)) (k : String) : List (String × JVal) :=
  match fs with
  | [] => []
  | (k', v) :: t => if k' = k then dictRemove t k else (k', v) :: dictRemove t k

/-- Python `d[k] = v`: replace the value in place if the key exists,
otherwise append the binding at the end (insertion order). -/
def dictSet (fs : List (String × JVal)) (k : String) (v : JVal) : List (String × JVal) :=
  match fs with
  | [] => [(k, v)]
  | (k', v') :: t => if k' = k then (k', v) :: t else (k', v') :: dictSet t k v

/-- Python `obj[k]` with a string key: KeyError on a missing dict key,
TypeError on non-dict containers and scalars. -/
def pyGet (v : JVal) (k : String) : Except String JVal :=
  match v with
  | .dict fs =>
    match dictLookup fs k with
    | some x => .ok x
    | none => .error ("KeyError: " ++ k)
  | .list _ => .error "TypeError: list indices must be integers or slices, not str"
  | .str _ => .error "TypeError: string indices must be integers"
  | _ => .error "TypeError: object is not subscriptable"

/-- Python `obj.get(k, default)`: only dicts have a `.get` method; anything
else raises AttributeError. -/
def pyDictGet (v : JVal) (k : String) (dflt : JVal) : Except String JVal :=
  match v with
  | .dict fs => .ok ((dictLookup fs k).getD dflt)
  | _ => .error "AttributeError: object has no attribute get"

/-- Python `obj[0]`. -/
def pyIndex0 (v : JVal) : Except String JVal :=
  match v with
  | .list [] => .error "IndexError: list index out of range"
  | .list (x :: _) => .ok x
  | .str s =>
    match s.data with
    | [] => .error "IndexError: string index out of range"
    | c :: _ => .ok (.str (String.singleton c))
  | .dict fs =>
    -- dict[0] is a key lookup with the integer key 0; no string key equals 0
    match fs with
    | _ => .error "KeyError: 0"
  | _ => .error "TypeError: object is not subscriptable"

/-- Python `for x in v`: lists yield their elements, strings their characters,
dicts their keys; scalars are not iterable. -/
def pyIter (v : JVal) : Except String (List JVal) :=
  match v with
  | .list xs => .ok xs
  | .str s => .ok (s.data.map (fun c => .str (String.singleton c)))
  | .dict fs => .ok (fs.map (fun p => .str p.1))
  | _ => .error "TypeError: object is not iterable"

/-- Python `v[:5]`. -/
def pySlice5 (v : JVal) : Except String (List JVal) :=
  match v with
  | .list xs => .ok (xs.take 5)
  | .str s => .ok ((s.data.take 5).map (fun c => .str (String.singleton c)))
  | _ => .error "TypeError: unhashable type: slice"

/-- Substring search on character lists: does `needle` occur contiguously in
`hay`?  Models the Python `in` operator on strings. -/
def containsSub (needle hay : List Char) : Bool :=
  needle.isPrefixOf hay ||
    match hay with
    | [] => false
    | _ :: t => containsSub needle t

/-- Substring search on strings. -/
def strContains (hay needle : String) : Bool :=
  containsSub needle.data hay.data

/-- Python `k in v` for a string `k`: dict key membership, list element
membership (a string compares equal only to an equal string), substring test
on strings; TypeError otherwise. -/
def pyIn (k : String) (v : JVal) : Except String Bool :=
  match v with
  | .dict fs => .ok (fs.any (fun p => p.1 = k))
  | .list xs => .ok (xs.any (fun x => match x with | .str s => s = k | _ => false))
  | .str s => .ok (containsSub k.data s.data)
  | _ => .error "TypeError: argument of type is not iterable"

/-- Python `repr` of a string: quote heuristic of CPython (single quotes
unless the string contains a single quote and no double quote), with
backslash and quote escaping.  Only the escapes relevant to the modelled
data are produced. -/
def pyReprStr (s : String) : String :=
  let hasSingle := s.data.any (· = '\'')
  let hasDouble := s.data.any (· = '"')
  if hasSingle && !hasDouble then
    "\"" ++ String.mk (s.data.flatMap (fun c => if c = '\\' then ['\\', '\\'] else [c])) ++ "\""
  else
    "\x27" ++ String.mk (s.data.flatMap (fun c =>
      if c = '\\' then ['\\', '\\'] else if c = '\'' then ['\\', '\''] else [c])) ++ "\x27"

mutual

/-- Python `repr` of a modelled value (used by `str(...)` on containers,
e.g. in the `[Calling tool ... with args ...]` marker f-string). -/
def pyRepr : JVal → String
  | .null => "None"
  | .bool true => "True"
  | .bool false => "False"
  | .int n => toString n
  | .str s => pyReprStr s
  | .list xs => "[" ++ pyReprList xs ++ "]"
  | .dict fs => "\x7b" ++ pyReprFields fs ++ "\x7d"
  | .sdk _ => "<mcp-content-object>"

def pyReprList : List JVal → String
  | [] => ""
  | [x] => pyRepr x
  | x :: xs => pyRepr x ++ ", " ++ pyReprList xs

def pyReprFields : List (String × JVal) → String
  | [] => ""
  | [(k, v)] => pyReprStr k ++ ": " ++ pyRepr v
  | (k, v) :: t => pyReprStr k ++ ": " ++ pyRepr v ++ ", " ++ pyReprFields t

end

/-- Python `str(...)` as used in f-string interpolation. -/
def pyStr (v : JVal) : String :=
  match v with
  | .str s => s
  | _ => pyRepr v

/-- Hex digit. -/
def hexDigit (n : Nat) : Char :=
  if n < 10 then Char.ofNat (48 + n) else Char.ofNat (87 + (n % 6))

/-- Four-digit lowercase hex rendering of a value below 0x10000. -/
def hex4 (n : Nat) : List Char :=
  [hexDigit (n / 4096 % 16), hexDigit (n / 256 % 16), hexDigit (n / 16 % 16), hexDigit (n % 16)]

/-- `json.dumps` escaping of one character (default `ensure_ascii=True`):
printable ASCII passes through except quote and backslash; everything else
becomes `\uXXXX` (with surrogate pairs above the BMP), plus the short forms
for the common control characters. -/
def jsonEscapeChar (c : Char) : List Char :=
  if c = '"' then ['\\', '"']
  else if c = '\\' then ['\\', '\\']
  else if c = '\n' then ['\\', 'n']
  else if c = '\t' then ['\\', 't']
  else if c = '\r' then ['\\', 'r']
  else if c = '\x08' then ['\\', 'b']
  else if c = '\x0c' then ['\\', 'f']
  else if c.toNat ≥ 32 && c.toNat < 127 then [c]
  else if c.toNat < 65536 then '\\' :: 'u' :: hex4 c.toNat
  else
    let n := c.toNat - 65536
    ('\\' :: 'u' :: hex4 (55296 + n / 1024)) ++ ('\\' :: 'u' :: hex4 (56320 + n % 1024))

/-- `json.dumps` of a string. -/
def jsonDumpStr (s : String) : String :=
  "\"" ++ String.mk (s.data.flatMap jsonEscapeChar) ++ "\""

mutual

/-- `json.dumps` with the CPython default separators `", "` and `": "`.
`sdk` objects are not JSON-serializable; they never reach this function in
the modelled code paths. -/
def pyJsonDumps : JVal → String
  | .null => "null"
  | .bool true => "true"
  | .bool false => "false"
  | .int n => toString n
  | .str s => jsonDumpStr s
  | .list xs => "[" ++ pyJsonDumpsList xs ++ "]"
  | .dict fs => "\x7b" ++ pyJsonDumpsFields fs ++ "\x7d"
  | .sdk _ => "<unserializable>"

def pyJsonDumpsList : List JVal → String
  | [] => ""
  | [x] => pyJsonDumps x
  | x :: xs => pyJsonDumps x ++ ", " ++ pyJsonDumpsList xs

def pyJsonDumpsFields : List (String × JVal) → String
  | [] => ""
  | [(k, v)] => jsonDumpStr k ++ ": " ++ pyJsonDumps v
  | (k, v) :: t => jsonDumpStr k ++ ": " ++ pyJsonDumps v ++ ", " ++ pyJsonDumpsFields t

end

/-- `"\n".join(final_text)`: every element must be a string, otherwise Python
raises a TypeError. -/
def pyJoinNewline (xs : List JVal) : Except String String := do
  let strs ← xs.mapM (fun v =>
    match v with
    | JVal.str s => Except.ok s
    | _ => Except.error "TypeError: sequence item: expected str instance")
  return String.intercalate "\n" strs

/-! ### Python string helpers -/

/-- Python whitespace (the set stripped by `str.strip()` and matched by
`\s`): ASCII whitespace, the C1 separators, NEL, NBSP and the common Unicode
space characters. -/
def isPyWs (c : Char) : Bool :=
  (9 ≤ c.toNat && c.toNat ≤ 13) || (28 ≤ c.toNat && c.toNat ≤ 31) ||
  c = ' ' || c.toNat = 133 || c.toNat = 160 || c.toNat = 5760 ||
  (8192 ≤ c.toNat && c.toNat ≤ 8202) || c.toNat = 8232 || c.toNat = 8233 ||
  c.toNat = 8239 || c.toNat = 8287 || c.toNat = 12288

/-- `str.strip()` on a character list. -/
def stripL (l : List Char) : List Char :=
  ((l.dropWhile isPyWs).reverse.dropWhile isPyWs).reverse

/-- Python `str.strip()`. -/
def pyStrip (s : String) : String :=
  String.mk (stripL s.data)

/-- Line-break characters recognized by `str.splitlines()`. -/
def isLineBreak (c : Char) : Bool :=
  c = '\n' || c = '\r' || c = '\x0b' || c = '\x0c' ||
  c = '\x1c' || c = '\x1d' || c = '\x1e' || c.toNat = 133 ||
  c.toNat = 8232 || c.toNat = 8233

/-- `str.splitlines()` scanner: `\r\n` counts as a single break, and a
trailing break produces no empty final line. -/
def splitlinesAux : List Char → List Char → List (List Char)
  | [], acc => if acc.isEmpty then [] else [acc.reverse]
  | '\r' :: '\n' :: t, acc => acc.reverse :: splitlinesAux t []
  | c :: t, acc =>
    if isLineBreak c then acc.reverse :: splitlinesAux t []
    else splitlinesAux t (c :: acc)

/-- Python `str.splitlines()`. -/
def pySplitlines (s : String) : List String :=
  (splitlinesAux s.data []).map String.mk

/-- Python `str.lower()` restricted to ASCII case mapping (the only case the
modelled strings exercise). -/
def pyLower (s : String) : String :=
  String.mk (s.data.map Char.toLower)

/-- Python `str.upper()` restricted to ASCII case mapping. -/
def pyUpper (s : String) : String :=
  String.mk (s.data.map Char.toUpper)

/-- Python `str.startswith(p)`. -/
def pyStartsWith (s p : String) : Bool :=
  p.data.isPrefixOf s.data

/-- `str.split()` with no argument: split on runs of whitespace, discarding
empty fields. -/
def pySplitWsAux : List Char → List Char → List String
  | [], acc => if acc.isEmpty then [] else [String.mk acc.reverse]
  | c :: t, acc =>
    if isPyWs c then
      if acc.isEmpty then pySplitWsAux t [] else String.mk acc.reverse :: pySplitWsAux t []
    else pySplitWsAux t (c :: acc)

/-- Python `query.split()`. -/
def pySplitWs (s : String) : List String :=
  pySplitWsAux s.data []

/-- `" ".join(xs)`. -/
def pyJoinSpace (xs : List String) : String :=
  String.intercalate " " xs

/-! ### `weather.py` — the tool server

`make_nws_request` (lines 15-27) wraps an HTTP GET in `try/except` and
returns `None` on any transport, status or JSON failure, so it is modelled
as an oracle `req : String → Option JVal` from URL to parsed body.  The
wrapper also catches a `TypeError` from passing a non-string URL to
`client.get`, which `get_forecast` can do when `points_data["properties"]["forecast"]`
is not a string. -/

/-- NWS API base URL (`weather.py` line 12). -/
def NWS_API_BASE : String := "https://api.weather.gov"

/-- `format_alert` (`weather.py` lines 29-38).  The direct `feature["properties"]`
subscript can raise; the `.get` calls cannot once `props` is a dict. -/
def format_alert (feature : JVal) : Except String String := do
  let props ← pyGet feature "properties"
  let ev ← pyDictGet props "event" (.str "Unknown")
  let area ← pyDictGet props "areaDesc" (.str "Unknown")
  let sev ← pyDictGet props "severity" (.str "Unknown")
  let desc ← pyDictGet props "description" (.str "No description available")
  let instr ← pyDictGet props "instruction" (.str "No specific instructions provided")
  return "\nEvent: " ++ pyStr ev ++ "\nArea: " ++ pyStr area ++ "\nSeverity: " ++ pyStr sev ++
    "\nDescription: " ++ pyStr desc ++ "\nInstructions: " ++ pyStr instr ++ "\n"

/-- `get_alerts` (`weather.py` lines 40-57).  `.error` models an uncaught
Python exception reaching the caller. -/
def get_alerts (state : String) (req : String → Option JVal) : Except String String := do
  let url := NWS_API_BASE ++ "/alerts/active/area/" ++ state
  match req url with
  | none => return "Unable to fetch alerts or no alerts found."
  | some data =>
    if !truthy data then
      return "Unable to fetch alerts or no alerts found."
    else do
      let hasFeatures ← pyIn "features" data
      if !hasFeatures then
        return "Unable to fetch alerts or no alerts found."
      else do
        let features ← pyGet data "features"
        if !truthy features then
          return "No active alerts for this state."
        else do
          let feats ← pyIter features
          let alerts ← feats.mapM format_alert
          return String.intercalate "\n---\n" alerts

/-- `get_forecast` (`weather.py` lines 59-93).  The latitude and longitude
are modelled by their decimal renderings (they are only ever interpolated
into URLs and text). -/
def get_forecast (latitude longitude : String) (req : String → Option JVal) :
    Except String String := do
  let points_url := NWS_API_BASE ++ "/points/" ++ latitude ++ "," ++ longitude
  match req points_url with
  | none => return "Unable to fetch forecast data for this location."
  | some points_data =>
    if !truthy points_data then
      return "Unable to fetch forecast data for this location."
    else do
      let props ← pyGet points_data "properties"
      let forecast_url ← pyGet props "forecast"
      -- a non-string URL makes httpx raise inside the try block of make_nws_request,
      -- which returns None
      let fd := match forecast_url with
        | .str u => req u
        | _ => none
      match fd with
      | none => return "Unable to fetch detailed forecast."
      | some forecast_data =>
        if !truthy forecast_data then
          return "Unable to fetch detailed forecast."
        else do
          let fprops ← pyGet forecast_data "properties"
          let periods ← pyGet fprops "periods"
          let firstFive ← pySlice5 periods
          let forecasts ← firstFive.mapM (fun period => do
            let name ← pyGet period "name"
            let temp ← pyGet period "temperature"
            let unit ← pyGet period "temperatureUnit"
            let wind ← pyGet period "windSpeed"
            let wdir ← pyGet period "windDirection"
            let det ← pyGet period "detailedForecast"
            pure ("\n" ++ pyStr name ++ ":\nTemperature: " ++ pyStr temp ++ "°" ++ pyStr unit ++
              "\nWind: " ++ pyStr wind ++ " " ++ pyStr wdir ++ "\nForecast: " ++ pyStr det ++ "\n"))
          return String.intercalate "\n---\n" forecasts

/-- `get_global_forecast` (`weather.py` lines 95-117): every exception inside
the `try` is caught and converted into the fallback string, so the function
is total. -/
def get_global_forecast (lat lon : String) (req : String → Option JVal) : String :=
  let url := "https://api.open-meteo.com/v1/forecast?latitude=" ++ lat ++ "&longitude=" ++ lon ++
    "&current_weather=true&hourly=temperature_2m,precipitation,weathercode,wind_speed_10m"
  match req url with
  | none => "Unable to fetch global forecast."
  | some data =>
    let attempt : Except String String := do
      let hasCw ← pyIn "current_weather" data
      if hasCw then do
        let cw ← pyGet data "current_weather"
        let t ← pyGet cw "temperature"
        let w ← pyGet cw "windspeed"
        let wc ← pyGet cw "weathercode"
        pure ("Current Weather:\nTemperature: " ++ pyStr t ++ "°C\nWind: " ++ pyStr w ++
          " km/h\nWeather Code: " ++ pyStr wc ++ "\n")
      else
        pure "Unable to fetch global forecast."
    match attempt with
    | .ok s => s
    | .error _ => "Unable to fetch global forecast."

/-- `get_historical_weather` (`weather.py` lines 259-274): mock data, no
request is issued — the definition takes no request oracle, so the result
depends on nothing but the interpolated coordinates. -/
def get_historical_weather (latitude longitude : String) : String :=
  "\nYesterday at (" ++ latitude ++ ", " ++ longitude ++
    "):\nTemperature: 68°F\nWind: 5 mph NW\nConditions: Partly cloudy, no precipitation.\n"

/-- `geocode_location` (`weather.py` lines 276-292): the whole body is inside
`try/except: pass`, so the function is total and returns `None` on any
failure.  `geoReq` maps the searched location to the parsed JSON response
(`None` for transport/JSON failures); `pfloat` is Python `str(float(s))`
rendering (`None` when `float(s)` raises). -/
def geocode_location (location : String) (geoReq : String → Option JVal)
    (pfloat : String → Option String) : Option (String × String) :=
  match geoReq location with
  | none => none
  | some data =>
    if truthy data then
      let attempt : Except String (String × String) := do
        let d0 ← pyIndex0 data
        let latv ← pyGet d0 "lat"
        let lonv ← pyGet d0 "lon"
        let la ← match latv with
          | .str s => match pfloat s with
            | some f => Except.ok f
            | none => Except.error "ValueError: could not convert string to float"
          | .int n => Except.ok (toString n ++ ".0")
          | .bool b => Except.ok (if b then "1.0" else "0.0")
          | _ => Except.error "TypeError: float() argument"
        let lo ← match lonv with
          | .str s => match pfloat s with
            | some f => Except.ok f
            | none => Except.error "ValueError: could not convert string to float"
          | .int n => Except.ok (toString n ++ ".0")
          | .bool b => Except.ok (if b then "1.0" else "0.0")
          | _ => Except.error "TypeError: float() argument"
        pure (la, lo)
      match attempt with
      | .ok p => some p
      | .error _ => none
    else none

/-- The static `location_map` of the `/chat` endpoint (`weather.py`
lines 175-229), with the float coordinates in their `str(...)` rendering. -/
def locationMap : List (String × (String × String)) :=
  [("alabama", ("32.8067", "-86.7911")),
   ("alaska", ("61.3707", "-152.4044")),
   ("arizona", ("33.7298", "-111.4312")),
   ("arkansas", ("34.9697", "-92.3731")),
   ("california", ("36.7783", "-119.4179")),
   ("colorado", ("39.5501", "-105.7821")),
   ("connecticut", ("41.6032", "-73.0877")),
   ("delaware", ("38.9108", "-75.5277")),
   ("florida", ("27.9944", "-81.7603")),
   ("georgia", ("33.0406", "-83.6431")),
   ("hawaii", ("21.0943", "-157.4983")),
   ("idaho", ("44.2405", "-114.4788")),
   ("illinois", ("40.3495", "-88.9861")),
   ("indiana", ("39.8494", "-86.2583")),
   ("iowa", ("42.0115", "-93.2105")),
   ("kansas", ("38.5266", "-96.7265")),
   ("kentucky", ("37.6681", "-84.6701")),
   ("louisiana", ("31.1695", "-91.8678")),
   ("maine", ("44.6939", "-69.3819")),
   ("maryland", ("39.0639", "-76.8021")),
   ("massachusetts", ("42.2302", "-71.5301")),
   ("michigan", ("43.3266", "-84.5361")),
   ("minnesota", ("45.6945", "-93.9002")),
   ("mississippi", ("32.7416", "-89.6787")),
   ("missouri", ("38.4561", "-92.2884")),
   ("montana", ("46.9219", "-110.4544")),
   ("nebraska", ("41.1254", "-98.2681")),
   ("nevada", ("38.3135", "-117.0554")),
   ("new hampshire", ("43.4525", "-71.5639")),
   ("new jersey", ("40.2989", "-74.521")),
   ("new mexico", ("34.8405", "-106.2485")),
   ("new york", ("40.7128", "-74.006")),
   ("north carolina", ("35.6301", "-79.8064")),
   ("north dakota", ("47.5289", "-99.784")),
   ("ohio", ("40.3888", "-82.7649")),
   ("oklahoma", ("35.5653", "-96.9289")),
   ("oregon", ("44.572", "-122.0709")),
   ("pennsylvania", ("40.5908", "-77.2098")),
   ("rhode island", ("41.6809", "-71.5118")),
   ("south carolina", ("33.8569", "-80.945")),
   ("south dakota", ("44.2998", "-99.4388")),
   ("tennessee", ("35.7478", "-86.6923")),
   ("texas", ("31.0545", "-97.5635")),
   ("utah", ("40.15", "-111.8624")),
   ("vermont", ("44.0459", "-72.7107")),
   ("virginia", ("37.7693", "-78.17")),
   ("washington", ("47.4009", "-121.4905")),
   ("west virginia", ("38.4912", "-80.9546")),
   ("wisconsin", ("44.2685", "-89.6165")),
   ("wyoming", ("42.7559", "-107.3025")),
   ("district of columbia", ("38.8974", "-77.0268")),
   ("newyork", ("40.7128", "-74.006"))]

/-- Lookup in `locationMap` (`location_map.get(location.lower())`). -/
def locationMapGet (k : String) : Option (String × String) :=
  (locationMap.find? (fun p => p.1 = k)).map Prod.snd

/-- The common tail of the `/chat` forecast branch: try the NWS forecast
first, fall back to Open-Meteo when the points lookup failed (`weather.py`
lines 166-171 and 240-246).  Exceptions from `get_forecast` raised *here*
(in the `except` handler) propagate out of `chat`. -/
def chatForecastAt (lat lon : String) (req : String → Option JVal) :
    Except String String := do
  let nws ← get_forecast lat lon req
  if !strContains nws "Unable to fetch forecast data for this location." then
    return nws
  else
    return get_global_forecast lat lon req

/-- The `/chat` endpoint dispatch (`weather.py` lines 150-257) on an
extracted query string.  `.error` models an uncaught exception (an HTTP 500).
`pfloat s` models `str(float(s))`, `none` when `float(s)` raises. -/
def chat (query : String) (req : String → Option JVal) (geoReq : String → Option JVal)
    (pfloat : String → Option String) : Except String String :=
  if pyStartsWith (pyLower query) "alerts in" then do
    let state := pyUpper ((pySplitWs query).getLastD "")
    get_alerts state req
  else if pyStartsWith (pyLower query) "forecast for" then
    let parts := pySplitWs query
    let tryBranch : Except String String := do
      let lat ← match pfloat ((parts.dropLast).getLastD "") with
        | some f => Except.ok f
        | none => Except.error "ValueError: could not convert string to float"
      let lon ← match pfloat (parts.getLastD "") with
        | some f => Except.ok f
        | none => Except.error "ValueError: could not convert string to float"
      chatForecastAt lat lon req
    match tryBranch with
    | .ok r => .ok r
    | .error _ =>
      -- `except Exception:` — fall back to a named location
      let location := pyStrip (pyJoinSpace (parts.drop 2))
      match locationMapGet (pyLower location) with
      | some (lat, lon) => chatForecastAt lat lon req
      | none =>
        match geocode_location location geoReq pfloat with
        | some (lat, lon) => chatForecastAt lat lon req
        | none =>
          .ok ("Unknown location \x27" ++ location ++
            "\x27. Try: forecast for <lat> <lon> or forecast for <city/state> (e.g. NewYork)")
  else if pyStartsWith (pyLower query) "history for" then
    let parts := pySplitWs query
    let tryBranch : Except String String := do
      let lat ← match pfloat ((parts.dropLast).getLastD "") with
        | some f => Except.ok f
        | none => Except.error "ValueError: could not convert string to float"
      let lon ← match pfloat (parts.getLastD "") with
        | some f => Except.ok f
        | none => Except.error "ValueError: could not convert string to float"
      pure (get_historical_weather lat lon)
    match tryBranch with
    | .ok r => .ok r
    | .error _ => .ok "Invalid coordinates. Use: history for <lat> <lon>"
  else
    .ok "Try: alerts in <STATE>, forecast for <LAT> <LON>, or history for <LAT> <LON>"

/-! ### `client.py` — message log and Groq adapter -/

/-- One entry of the `tool_calls` list of a turn as `client.py` constructs and
consumes it: a dict with keys `id`, `type` and `function` (itself a dict). -/
structure ToolCallMsg where
  id : JVal
  type : JVal
  function : List (String × JVal)

/-- One conversation turn.  `none` in an `Option` field models an absent
dict key (all `client.py` accesses go through `.get` with a default, so a
key present with value `None` is modelled as `some .null`). -/
structure Msg where
  role : String
  content : Option JVal := none
  tool_calls : Option (List ToolCallMsg) := none
  tool_call_id : Option JVal := none

/-- The per-tool-call body of `sanitize_messages` (`client.py` lines 368-382):
copy the `function` dict, drop a `parameters` key, and force `arguments` to a
JSON string — `json.dumps` for a dict value, kept verbatim for a string
value, the empty-object encoding otherwise. -/
def sanitizeToolCall (tc : ToolCallMsg) : ToolCallMsg :=
  let func := dictRemove tc.function "parameters"
  let func :=
    match dictLookup func "arguments" with
    | some (.dict d) => dictSet func "arguments" (.str (pyJsonDumps (.dict d)))
    | some (.str _) => func
    | _ => dictSet func "arguments" (.str "\x7b\x7d")
  { id := tc.id, type := tc.type, function := func }

/-- The per-message body of `sanitize_messages` (`client.py` lines 359-394):
zero or one sanitized entries per input turn.  User and tool turns are
forwarded unconditionally with a defaulted content; assistant turns keep
their tool calls (with `content: None`) or their non-blank string content,
and are dropped otherwise; unknown roles produce nothing. -/
def sanitizeEntry (m : Msg) : List Msg :=
  if m.role = "user" then
    [{ role := "user", content := some (m.content.getD (.str "")) }]
  else if m.role = "assistant" then
    match m.tool_calls with
    | some tcs =>
      [{ role := "assistant", content := some .null, tool_calls := some (tcs.map sanitizeToolCall) }]
    | none =>
      match m.content with
      | some (.str s) => if pyStrip s ≠ "" then [{ role := "assistant", content := some (.str s) }] else []
      | _ => []
  else if m.role = "tool" then
    [{ role := "tool", content := some (m.content.getD (.str "")),
       tool_call_id := some (m.tool_call_id.getD .null) }]
  else []

/-- `sanitize_messages` (`client.py` lines 357-395). -/
def sanitize_messages : List Msg → List Msg
  | [] => []
  | m :: rest => sanitizeEntry m ++ sanitize_messages rest

/-- Outcome of one `requests.post` to the Groq endpoint: a raised
`RequestException` (transport failure), or a response carrying a status code,
the `str(e)` text an HTTP error for it would render, and the result of
`response.json()` (`.error` for an empty or malformed body). -/
inductive HttpOutcome where
  | transportError (msg : String)
  | resp (status : Nat) (statusMsg : String) (body : Except String JVal)

/-- `response_data["choices"][0]["message"]`. -/
def extractMessage (data : JVal) : Except String JVal := do
  let choices ← pyGet data "choices"
  let c0 ← pyIndex0 choices
  pyGet c0 "message"

/-- Flattening of `result.content` to a plain string
(`client.py` lines 448-455). -/
def flattenToolContent : MCPContent → String
  | .items l => String.join (l.map (fun i => match i with
      | .withText t => t
      | .other r => r))
  | .textObj t => t
  | .other r => r

/-- Mutable state of `_process_with_groq`, plus the observable traces: the
message payloads of every POST issued, and every `session.call_tool`
invocation in order. -/
structure GState where
  messages : List Msg
  segments : List JVal
  apiIdx : Nat
  requests : List (List Msg)
  toolsCalled : List (JVal × JVal)

/-- The follow-up round after one executed tool call (`client.py`
lines 461-479).  Everything inside the `try` is caught, so this step is
total: any failure appends an error text segment instead. -/
def groqFollowUp (http : Nat → HttpOutcome) (st : GState) : GState :=
  let sent := sanitize_messages st.messages
  let st' := { st with requests := st.requests ++ [sent], apiIdx := st.apiIdx + 1 }
  let errSeg := fun (e : String) =>
    { st' with segments := st'.segments ++ [.str ("Error getting follow-up response: " ++ e)] }
  match http st.apiIdx with
  | .transportError e => errSeg e
  | .resp status statusMsg body =>
    if 400 ≤ status then errSeg statusMsg
    else
      match body with
      | .error e => errSeg e
      | .ok data =>
        match extractMessage data with
        | .error e => errSeg e
        | .ok rm =>
          match pyDictGet rm "content" .null with
          | .error e => errSeg e
          | .ok c =>
            let msgs' :=
              if truthy c then st'.messages ++ [{ role := "assistant", content := some c }]
              else st'.messages ++ [{ role := "assistant" }]
            { st' with
              messages := msgs',
              segments := st'.segments ++ [(dictLookup (match rm with | .dict fs => fs | _ => []) "content").getD (.str "")] }

/-- One iteration of the `for tool_call in response_message["tool_calls"]`
loop (`client.py` lines 428-479).  The second component is `some e` when an
uncaught exception `e` aborts `_process_with_groq`. -/
def groqToolStep (http : Nat → HttpOutcome) (loads : String → Except String JVal)
    (callTool : JVal → JVal → Except String MCPContent) (tc : JVal) (st : GState) :
    GState × Option String :=
  match pyGet tc "function" with
  | .error e => (st, some e)
  | .ok fn =>
    match pyGet fn "name" with
    | .error e => (st, some e)
    | .ok name =>
      match pyGet fn "arguments" with
      | .error e => (st, some e)
      | .ok rawArgs =>
        let argsE := match rawArgs with
          | .str s => loads s
          | v => .ok v
        match argsE with
        | .error e => (st, some e)
        | .ok args =>
          let st := { st with toolsCalled := st.toolsCalled ++ [(name, args)] }
          match callTool name args with
          | .error e => (st, some e)
          | .ok content =>
            let st := { st with segments := st.segments ++
              [.str ("[Calling tool " ++ pyStr name ++ " with args " ++ pyStr args ++ "]")] }
            match pyGet tc "id" with
            | .error e => (st, some e)
            | .ok tcid =>
              let asstMsg : Msg :=
                { role := "assistant",
                  tool_calls := some [{ id := tcid, type := .str "function",
                                        function := [("name", name), ("arguments", args)] }] }
              let st := { st with messages := st.messages ++ [asstMsg] }
              let toolContent := flattenToolContent content
              let toolMsg : Msg :=
                { role := "tool", content := some (.str toolContent), tool_call_id := some tcid }
              let st := { st with messages := st.messages ++ [toolMsg] }
              (groqFollowUp http st, none)

/-- The tool-call loop of `_process_with_groq`: iterates over the tool calls
of the *initial* reply only, stopping early on an uncaught exception. -/
def groqLoop (http : Nat → HttpOutcome) (loads : String → Except String JVal)
    (callTool : JVal → JVal → Except String MCPContent) :
    List JVal → GState → GState × Option String
  | [], st => (st, none)
  | tc :: rest, st =>
    match groqToolStep http loads callTool tc st with
    | (st', some e) => (st', some e)
    | (st', none) => groqLoop http loads callTool rest st'

/-- Result of `_process_with_groq`: the returned string (or the uncaught
exception), the final state of the `messages` list, and the request/tool
traces. -/
structure GroqRun where
  result : Except String String
  messages : List Msg
  segments : List JVal
  requests : List (List Msg)
  toolsCalled : List (JVal × JVal)

/-- Package a `GState` and a result. -/
def GState.toRun (st : GState) (r : Except String String) : GroqRun :=
  { result := r, messages := st.messages, segments := st.segments,
    requests := st.requests, toolsCalled := st.toolsCalled }

/-- `_process_with_groq` (`client.py` lines 331-480).  `http n` is the
outcome of the `n`-th POST to the Groq endpoint (the initial request is
`n = 0`), `loads` is `json.loads`, and `callTool` is `session.call_tool`
(an `.error` models the coroutine raising).  The initial `try/except`
(lines 396-421) converts transport, HTTP-status and JSON-decoding failures
into a returned apology string; everything after line 422 runs outside any
`try`, so failures there are uncaught. -/
def processWithGroq (messages : List Msg) (http : Nat → HttpOutcome)
    (loads : String → Except String JVal)
    (callTool : JVal → JVal → Except String MCPContent) : GroqRun :=
  let st0 : GState :=
    { messages := messages, segments := [], apiIdx := 1,
      requests := [sanitize_messages messages], toolsCalled := [] }
  match http 0 with
  | .transportError e =>
    st0.toRun (.ok ("Sorry, I encountered an error when connecting to Groq API: " ++ e))
  | .resp status statusMsg body =>
    if 400 ≤ status then
      st0.toRun (.ok ("Sorry, I encountered an error when connecting to Groq API: " ++ statusMsg))
    else
      match body with
      | .error e =>
        st0.toRun (.ok ("Sorry, I encountered an error parsing the response from Groq API: " ++ e))
      | .ok data =>
        match extractMessage data with
        | .error e => st0.toRun (.error e)
        | .ok rm =>
          match pyDictGet rm "content" .null with
          | .error e => st0.toRun (.error e)
          | .ok c =>
            let st1 := { st0 with segments := if truthy c then [c] else [] }
            match pyDictGet rm "tool_calls" .null with
            | .error e => st1.toRun (.error e)
            | .ok tcv =>
              if truthy tcv then
                match pyGet rm "tool_calls" with
                | .error e => st1.toRun (.error e)
                | .ok tcv' =>
                  match pyIter tcv' with
                  | .error e => st1.toRun (.error e)
                  | .ok tcs =>
                    match groqLoop http loads callTool tcs st1 with
                    | (st', some e) => st'.toRun (.error e)
                    | (st', none) => st'.toRun (pyJoinNewline st'.segments)
              else
                st1.toRun (pyJoinNewline st1.segments)

/-! ### `client.py` — Anthropic adapter -/

/-- A content block of an Anthropic reply as `_process_with_claude` reads it:
a text block, or a tool-use block with a name, an input dict, and an optional
`.text` attribute (`hasattr` probing for a text attribute). -/
inductive CBlock where
  | text (t : String)
  | toolUse (name : String) (input : JVal) (textAttr : Option String)

/-- `response.content[0].text` inside the follow-up `try` (`client.py`
line 140): an empty content list raises IndexError, a block without a `.text`
attribute raises AttributeError; both are caught by the handler. -/
def blockText0 : List CBlock → Except String String
  | [] => .error "list index out of range"
  | .text t :: _ => .ok t
  | .toolUse _ _ (some t) :: _ => .ok t
  | .toolUse _ _ none :: _ => .error "object has no attribute text"

/-- State of `_process_with_claude`: the message list, the accumulated
`final_text` segments (always strings on this path), the API call counter
and the trace of tool invocations. -/
structure CState where
  messages : List Msg
  segments : List String
  apiIdx : Nat
  toolsCalled : List (String × JVal)

/-- Result of `_process_with_claude`. -/
structure ClaudeRun where
  result : Except String String
  messages : List Msg
  toolsCalled : List (String × JVal)

/-- The turns appended by one tool-use block: the optional free-text
assistant turn (`client.py` lines 123-127, appended only when the block has
a truthy `.text`), then the tool result as a `"user"` turn carrying the raw
SDK content object (lines 128-131). -/
def claudeAppended (textAttr : Option String) (content : MCPContent) : List Msg :=
  (match textAttr with
   | some t =>
     if t ≠ "" then [{ role := "assistant", content := some (.str t) }]
     else []
   | none => []) ++
  [{ role := "user", content := some (.sdk content) }]

/-- The text segment contributed by the follow-up request (`client.py`
lines 133-142): the first block's text on success, an error string when the
request or the `response.content[0].text` access raised (all caught). -/
def claudeFollowSeg (api : Nat → Except String (List CBlock)) (idx : Nat) : String :=
  match api idx with
  | .error e => "Error getting follow-up response: " ++ e
  | .ok blocks =>
    match blockText0 blocks with
    | .ok t => t
    | .error e => "Error getting follow-up response: " ++ e

/-- One block of the initial Claude reply (`client.py` lines 111-143).
Returns `some e` when `session.call_tool` raised — the only uncaught
exception on this path. -/
def claudeBlockStep (api : Nat → Except String (List CBlock))
    (callTool : JVal → JVal → Except String MCPContent) (b : CBlock) (st : CState) :
    CState × Option String :=
  match b with
  | .text t => ({ st with segments := st.segments ++ [t] }, none)
  | .toolUse name input textAttr =>
    match callTool (.str name) input with
    | .error e => ({ st with toolsCalled := st.toolsCalled ++ [(name, input)] }, some e)
    | .ok content =>
      ({ messages := st.messages ++ claudeAppended textAttr content,
         segments := st.segments ++
           ["[Calling tool " ++ name ++ " with args " ++ pyStr input ++ "]"] ++
           [claudeFollowSeg api st.apiIdx],
         apiIdx := st.apiIdx + 1,
         toolsCalled := st.toolsCalled ++ [(name, input)] }, none)

/-- The block loop of `_process_with_claude` over the initial reply. -/
def claudeLoop (api : Nat → Except String (List CBlock))
    (callTool : JVal → JVal → Except String MCPContent) :
    List CBlock → CState → CState × Option String
  | [], st => (st, none)
  | b :: rest, st =>
    match claudeBlockStep api callTool b st with
    | (st', some e) => (st', some e)
    | (st', none) => claudeLoop api callTool rest st'

/-- `_process_with_claude` (`client.py` lines 91-144).  `api n` is the
outcome of the `n`-th `anthropic.messages.create` call (`n = 0` is the
initial, tool-carrying request). -/
def processWithClaude (messages : List Msg) (api : Nat → Except String (List CBlock))
    (callTool : JVal → JVal → Except String MCPContent) : ClaudeRun :=
  match api 0 with
  | .error e =>
    { result := .ok ("Sorry, I encountered an error when connecting to Claude: " ++ e),
      messages := messages, toolsCalled := [] }
  | .ok blocks =>
    let st0 : CState := { messages := messages, segments := [], apiIdx := 1, toolsCalled := [] }
    match claudeLoop api callTool blocks st0 with
    | (st, some e) => { result := .error e, messages := st.messages, toolsCalled := st.toolsCalled }
    | (st, none) =>
      { result := .ok (String.intercalate "\n" st.segments), messages := st.messages,
        toolsCalled := st.toolsCalled }

/-- The scan of `process_query` (`client.py` lines 85-88): the content of the
most recent turn whose role is `"tool"` (`None`-defaulted), or `none` when no
such turn exists. -/
def lastToolScan (messages : List Msg) : Option JVal :=
  match messages.reverse.find? (fun m => m.role = "tool") with
  | none => none
  | some m => some (m.content.getD .null)

/-! ### `client.py` — presentation (`chat_loop`, lines 496-504) -/

/-- `"<tool-use"` as characters. -/
def tuPre : List Char := "<tool-use".data

/-- `"</tool-use>"` as characters. -/
def tuPost : List Char := "</tool-use>".data

/-- Scanner for the first regex branch `^<tool-use.*?>.*?</tool-use>$` after
the `<tool-use` prefix has been consumed: search for a `'>'` whose remainder
ends with `</tool-use>`. -/
def tuScan : List Char → Bool
  | [] => false
  | c :: t => (c = '>' && tuPost.isSuffixOf t) || tuScan t

/-- Translation of `re.match` with the anchored pattern
`^<tool-use.*?>.*?</tool-use>$|^<tool-use\s*/?>$` (DOTALL; the input is
already stripped and lowercased, so IGNORECASE and the end-anchor nuance
are moot) applied to the whole string. -/
def toolUseMatch (s : String) : Bool :=
  tuPre.isPrefixOf s.data &&
    (tuScan (s.data.drop 9) ||
      (let r := (s.data.drop 9).dropWhile isPyWs
       r == ['>'] || r == ['/', '>']))

/-- `"\n".join(line for line in llm_response.splitlines() if not
line.startswith("[Calling tool "))` (`client.py` line 497). -/
def removeToolCallLines (resp : String) : String :=
  String.intercalate "\n"
    ((pySplitlines resp).filter (fun l => !pyStartsWith l "[Calling tool "))

/-- The displayed answer of one `chat_loop` iteration (`client.py`
lines 497-504) given the processed response text and the scanned last tool
result.  The fallback branch concatenates `"[Tool Result] "` with the raw
value, which raises TypeError when that value is not a string (caught by the
outer handler, modelled as `.error`). -/
def present (llmResponse : String) (lastToolResult : Option JVal) : Except String String :=
  let cleaned := removeToolCallLines llmResponse
  let cs := pyLower (pyStrip cleaned)
  match lastToolResult with
  | some v =>
    if (cs = "" || toolUseMatch cs) && truthy v then
      match v with
      | .str s => .ok ("[Tool Result] " ++ s)
      | _ => .error "TypeError: can only concatenate str"
    else .ok (pyStrip cleaned)
  | none => .ok (pyStrip cleaned)

/-! ### Supporting lemmas -/

theorem dictLookup_dictSet_self (fs : List (String × JVal)) (k : String) (v : JVal) :
    dictLookup (dictSet fs k v) k = some v := by
  induction fs with
  | nil => simp [dictSet, dictLookup]
  | cons p t ih =>
    obtain ⟨k', v'⟩ := p
    by_cases h : k' = k
    · simp [dictSet, dictLookup, h]
    · simp [dictSet, dictLookup, h, ih]

theorem dictLookup_dictRemove_ne (fs : List (String × JVal)) (k k' : String) (h : k ≠ k') :
    dictLookup (dictRemove fs k') k = dictLookup fs k := by
  induction fs with
  | nil => simp [dictRemove, dictLookup]
  | cons p t ih =>
    obtain ⟨k₀, v₀⟩ := p
    by_cases h₀ : k₀ = k'
    · subst h₀
      rw [dictRemove, if_pos rfl, ih, dictLookup, if_neg (Ne.symm h)]
    · rw [dictRemove, if_neg h₀]
      by_cases h₁ : k₀ = k
      · rw [dictLookup, dictLookup, if_pos h₁, if_pos h₁]
      · rw [dictLookup, dictLookup, if_neg h₁, if_neg h₁, ih]

/-- The sanitized `arguments` field is always a string. -/
theorem sanitizeToolCall_arguments (tc : ToolCallMsg) :
    ∃ s, dictLookup (sanitizeToolCall tc).function "arguments" = some (.str s) := by
  unfold sanitizeToolCall
  cases h : dictLookup (dictRemove tc.function "parameters") "arguments" with
  | none => exact ⟨"\x7b\x7d", by simp [h, dictLookup_dictSet_self]⟩
  | some v =>
    cases v with
    | str s => exact ⟨s, by simp [h]⟩
    | dict d => exact ⟨pyJsonDumps (.dict d), by simp [h, dictLookup_dictSet_self]⟩
    | null => exact ⟨"\x7b\x7d", by simp [h, dictLookup_dictSet_self]⟩
    | bool b => exact ⟨"\x7b\x7d", by simp [h, dictLookup_dictSet_self]⟩
    | int n => exact ⟨"\x7b\x7d", by simp [h, dictLookup_dictSet_self]⟩
    | list xs => exact ⟨"\x7b\x7d", by simp [h, dictLookup_dictSet_self]⟩
    | sdk c => exact ⟨"\x7b\x7d", by simp [h, dictLookup_dictSet_self]⟩

theorem sanitize_messages_append (a b : List Msg) :
    sanitize_messages (a ++ b) = sanitize_messages a ++ sanitize_messages b := by
  induction a with
  | nil => simp [sanitize_messages]
  | cons m t ih => simp [sanitize_messages, ih]

/-- Decomposition of membership in the sanitized output. -/
theorem mem_sanitize_messages {m' : Msg} {msgs : List Msg} (h : m' ∈ sanitize_messages msgs) :
    ∃ m ∈ msgs, m' ∈ sanitizeEntry m := by
  induction msgs with
  | nil => simp [sanitize_messages] at h
  | cons m t ih =>
    simp only [sanitize_messages, List.mem_append] at h
    rcases h with h | h
    · exact ⟨m, List.mem_cons_self _ _, h⟩
    · obtain ⟨m₀, hm₀, h₀⟩ := ih h
      exact ⟨m₀, List.mem_cons_of_mem _ hm₀, h₀⟩

/-- A sanitized entry either carries no tool calls or carries exactly the
per-call sanitization of the tool calls of its source turn. -/
theorem sanitizeEntry_toolCalls {m' m : Msg} (h : m' ∈ sanitizeEntry m) :
    m'.tool_calls = none ∨
      ∃ tcs, m.tool_calls = some tcs ∧ m'.tool_calls = some (tcs.map sanitizeToolCall) := by
  unfold sanitizeEntry at h
  by_cases hu : m.role = "user"
  · simp [hu] at h
    subst h; exact Or.inl rfl
  · by_cases ha : m.role = "assistant"
    · simp [hu, ha] at h
      cases htc : m.tool_calls with
      | some tcs =>
        rw [htc] at h
        simp at h
        subst h
        exact Or.inr ⟨tcs, rfl, rfl⟩
      | none =>
        rw [htc] at h
        cases hc : m.content with
        | none => rw [hc] at h; simp at h
        | some v =>
          rw [hc] at h
          cases v with
          | str s =>
            by_cases hs : pyStrip s ≠ ""
            · simp [hs] at h; subst h; exact Or.inl rfl
            · simp [hs] at h
          | null => simp at h
          | bool b => simp at h
          | int n => simp at h
          | list xs => simp at h
          | dict fs => simp at h
          | sdk c => simp at h
    · by_cases ht : m.role = "tool"
      · simp [hu, ha, ht] at h
        subst h; exact Or.inl rfl
      · simp [hu, ha, ht] at h

/-- `pyStartsWith` is stable under appending on the right. -/
theorem pyStartsWith_append_left (a b p : String) (h : pyStartsWith a p = true) :
    pyStartsWith (a ++ b) p = true := by
  unfold pyStartsWith at *
  rw [String.data_append]
  rw [List.isPrefixOf_iff_prefix] at *
  exact h.trans (List.prefix_append _ _)

/-- Correctness of the substring scanner. -/
theorem containsSub_iff (n h : List Char) :
    containsSub n h = true ↔ ∃ s t, h = s ++ n ++ t := by
  induction h with
  | nil =>
    rw [containsSub]
    simp only [Bool.or_false]
    rw [List.isPrefixOf_iff_prefix]
    constructor
    · rintro ⟨t, ht⟩
      exact ⟨[], t, by simp [← ht]⟩
    · rintro ⟨s, t, hst⟩
      have hs : s = [] := by
        cases s with
        | nil => rfl
        | cons a s' => simp at hst
      subst hs
      simp at hst
      have hn : n = [] := by
        cases n with
        | nil => rfl
        | cons a n' => simp at hst
      subst hn
      exact ⟨t, by simp [hst]⟩
  | cons c t ih =>
    rw [containsSub]
    rw [Bool.or_eq_true, List.isPrefixOf_iff_prefix, ih]
    constructor
    · rintro (⟨u, hu⟩ | ⟨s, u, hu⟩)
      · exact ⟨[], u, by simp [← hu]⟩
      · exact ⟨c :: s, u, by simp [hu]⟩
    · rintro ⟨s, u, hu⟩
      cases s with
      | nil =>
        left
        exact ⟨u, by simp at hu; simp [hu]⟩
      | cons a s' =>
        right
        simp at hu
        exact ⟨s', u, by simp [hu]⟩

/-- A string built around `n` contains `n`. -/
theorem strContains_of_parts (h u n v : String) (he : h = u ++ n ++ v) :
    strContains h n = true := by
  unfold strContains
  rw [containsSub_iff]
  exact ⟨u.data, v.data, by rw [he, String.data_append, String.data_append]⟩

theorem strAppend_assoc (a b c : String) : a ++ b ++ c = a ++ (b ++ c) := by
  apply String.ext
  simp [String.data_append]

/-- `get_alerts` on an upstream body whose `features` list is empty. -/
theorem get_alerts_empty_features (state : String) (req : String → Option JVal)
    (h : req (NWS_API_BASE ++ "/alerts/active/area/" ++ state) =
      some (.dict [("features", .list [])])) :
    get_alerts state req = .ok "No active alerts for this state." := by
  unfold get_alerts
  dsimp only
  rw [h]
  rfl

/-! ### Claim theorems -/

/-- C10: `get_historical_weather` is a pure function of its two coordinates:
it consults no request oracle (its Lean signature takes none, mirroring the
absence of any I/O in `weather.py` lines 259-274), and it interpolates
exactly the given coordinates into the fixed template, which contains
`Temperature: 68°F`, `Wind: 5 mph NW` and
`Conditions: Partly cloudy, no precipitation.`. -/
theorem spec_c10 (lat lon : String) :
    get_historical_weather lat lon =
      "\nYesterday at (" ++ lat ++ ", " ++ lon ++
        "):\nTemperature: 68°F\nWind: 5 mph NW\nConditions: Partly cloudy, no precipitation.\n" ∧
    strContains (get_historical_weather lat lon) "Temperature: 68°F" = true ∧
    strContains (get_historical_weather lat lon) "Wind: 5 mph NW" = true ∧
    strContains (get_historical_weather lat lon) "Conditions: Partly cloudy, no precipitation." = true ∧
    strContains (get_historical_weather lat lon) lat = true ∧
    strContains (get_historical_weather lat lon) lon = true := by
  refine ⟨rfl, ?_, ?_, ?_, ?_, ?_⟩
  · apply strContains_of_parts _ ("\nYesterday at (" ++ lat ++ ", " ++ lon ++ "):\n") _
      "\nWind: 5 mph NW\nConditions: Partly cloudy, no precipitation.\n"
    simp only [get_historical_weather, strAppend_assoc]
    try rfl
  · apply strContains_of_parts _
      ("\nYesterday at (" ++ lat ++ ", " ++ lon ++ "):\nTemperature: 68°F\n") _
      "\nConditions: Partly cloudy, no precipitation.\n"
    simp only [get_historical_weather, strAppend_assoc]
    try rfl
  · apply strContains_of_parts _
      ("\nYesterday at (" ++ lat ++ ", " ++ lon ++ "):\nTemperature: 68°F\nWind: 5 mph NW\n") _ "\n"
    simp only [get_historical_weather, strAppend_assoc]
    try rfl
  · apply strContains_of_parts _ "\nYesterday at (" _
      (", " ++ lon ++
        "):\nTemperature: 68°F\nWind: 5 mph NW\nConditions: Partly cloudy, no precipitation.\n")
    simp only [get_historical_weather, strAppend_assoc]
    try rfl
  · apply strContains_of_parts _ ("\nYesterday at (" ++ lat ++ ", ") _
      "):\nTemperature: 68°F\nWind: 5 mph NW\nConditions: Partly cloudy, no precipitation.\n"
    simp only [get_historical_weather, strAppend_assoc]
    try rfl

/-- C8: routing the query `"alerts in CA"` through the `/chat` endpoint when
the upstream responds with an empty `features` list yields exactly the answer
`"No active alerts for this state."`. -/
theorem spec_c8 (req : String → Option JVal) (geoReq : String → Option JVal)
    (pfloat : String → Option String)
    (h : req "https://api.weather.gov/alerts/active/area/CA" =
      some (.dict [("features", .list [])])) :
    chat "alerts in CA" req geoReq pfloat = .ok "No active alerts for this state." := by
  unfold chat
  rw [if_pos (by decide)]
  exact get_alerts_empty_features (pyUpper ((pySplitWs "alerts in CA").getLastD "")) req h

/-- Concrete upstream oracle answering only the California alerts URL, with
an empty `features` list. -/
def reqC8 : String → Option JVal := fun u =>
  if u = "https://api.weather.gov/alerts/active/area/CA" then
    some (.dict [("features", .list [])])
  else none

/-- Witness for C8 at the concrete oracle `reqC8`. -/
theorem spec_c8_witness :
    chat "alerts in CA" reqC8 (fun _ => none) (fun _ => none) =
      .ok "No active alerts for this state." :=
  spec_c8 reqC8 (fun _ => none) (fun _ => none) rfl

/-- C2 (amended): the three tool operations never raise *when the upstream
request itself fails* — `make_nws_request` returns `None` and the guarded
fallback strings are returned — and `get_historical_weather` is total
unconditionally.  (The unamended claim, which also covers truthy malformed
upstream bodies, is refuted by `spec_c2_cex`.) -/
theorem spec_c2 (state lat lon : String) (req : String → Option JVal) :
    (req (NWS_API_BASE ++ "/alerts/active/area/" ++ state) = none →
      get_alerts state req = .ok "Unable to fetch alerts or no alerts found.") ∧
    (req (NWS_API_BASE ++ "/points/" ++ lat ++ "," ++ lon) = none →
      get_forecast lat lon req = .ok "Unable to fetch forecast data for this location.") ∧
    get_historical_weather lat lon =
      "\nYesterday at (" ++ lat ++ ", " ++ lon ++
        "):\nTemperature: 68°F\nWind: 5 mph NW\nConditions: Partly cloudy, no precipitation.\n" := by
  refine ⟨?_, ?_, rfl⟩
  · intro h
    unfold get_alerts
    dsimp only
    rw [h]
    rfl
  · intro h
    unfold get_forecast
    dsimp only
    rw [h]
    rfl

/-- Witness for C2 on the everywhere-failing upstream. -/
theorem spec_c2_witness :
    get_alerts "CA" (fun _ => none) = .ok "Unable to fetch alerts or no alerts found." ∧
    get_forecast "40.7" "-74.0" (fun _ => none) =
      .ok "Unable to fetch forecast data for this location." :=
  ⟨(spec_c2 "CA" "40.7" "-74.0" (fun _ => none)).1 rfl,
   (spec_c2 "CA" "40.7" "-74.0" (fun _ => none)).2.1 rfl⟩

/-- Upstream oracle answering the points URL with a truthy but malformed
body: `{"properties": {}}` has no `forecast` key. -/
def badPointsReq : String → Option JVal := fun u =>
  if u = "https://api.weather.gov/points/40.7,-74.0" then
    some (.dict [("properties", .dict [])])
  else none

/-- Counterexample to C2 as stated: on a truthy malformed upstream body,
`get_forecast` raises (KeyError on the missing `forecast` key, modelled by
`.error`) instead of returning a string, and `get_alerts` raises a TypeError
when the parsed body is a bare number. -/
theorem spec_c2_cex :
    get_forecast "40.7" "-74.0" badPointsReq = .error "KeyError: forecast" ∧
    get_alerts "CA" (fun _ => some (.int 5)) =
      .error "TypeError: argument of type is not iterable" := by
  exact ⟨rfl, rfl⟩

/-- C5: every tool call in the output of `sanitize_messages` carries a
string-valued `arguments` field; a dict-valued input is serialized with the
JSON encoder, a string-valued input passes through, and anything else
(missing included) becomes the empty-object encoding `"{}"` (written
`"\x7b\x7d"`). -/
theorem spec_c5 :
    (∀ (msgs : List Msg) (m' : Msg) (tcs : List ToolCallMsg) (tc : ToolCallMsg),
        m' ∈ sanitize_messages msgs → m'.tool_calls = some tcs → tc ∈ tcs →
        ∃ s, dictLookup tc.function "arguments" = some (.str s)) ∧
    (∀ (tc : ToolCallMsg) (d : List (String × JVal)),
        dictLookup tc.function "arguments" = some (.dict d) →
        dictLookup (sanitizeToolCall tc).function "arguments" =
          some (.str (pyJsonDumps (.dict d)))) ∧
    (∀ (tc : ToolCallMsg) (s : String),
        dictLookup tc.function "arguments" = some (.str s) →
        dictLookup (sanitizeToolCall tc).function "arguments" = some (.str s)) ∧
    (∀ tc : ToolCallMsg,
        (∀ v, dictLookup tc.function "arguments" = some v →
          (∀ s, v ≠ .str s) ∧ (∀ d, v ≠ .dict d)) →
        dictLookup (sanitizeToolCall tc).function "arguments" = some (.str "\x7b\x7d")) := by
  have hrem : ∀ tc : ToolCallMsg,
      dictLookup (dictRemove tc.function "parameters") "arguments" =
        dictLookup tc.function "arguments" :=
    fun tc => dictLookup_dictRemove_ne _ _ _ (by decide)
  refine ⟨?_, ?_, ?_, ?_⟩
  · intro msgs m' tcs tc hm htc htcs
    obtain ⟨m, _, hentry⟩ := mem_sanitize_messages hm
    rcases sanitizeEntry_toolCalls hentry with hnone | ⟨tcs0, _, hsome⟩
    · rw [hnone] at htc; cases htc
    · rw [hsome] at htc
      injection htc with htc
      subst htc
      obtain ⟨tc0, _, htc0⟩ := List.mem_map.mp htcs
      subst htc0
      exact sanitizeToolCall_arguments tc0
  · intro tc d h
    unfold sanitizeToolCall
    dsimp only
    rw [hrem tc, h]
    simp [dictLookup_dictSet_self]
  · intro tc s h
    unfold sanitizeToolCall
    dsimp only
    rw [hrem tc, h]
    dsimp only
    rw [hrem tc]
    exact h
  · intro tc hspec
    unfold sanitizeToolCall
    dsimp only
    rw [hrem tc]
    cases hl : dictLookup tc.function "arguments" with
    | none => simp [dictLookup_dictSet_self]
    | some v =>
      obtain ⟨hns, hnd⟩ := hspec v hl
      cases v with
      | str s => exact absurd rfl (hns s)
      | dict d => exact absurd rfl (hnd d)
      | null => simp [dictLookup_dictSet_self]
      | bool b => simp [dictLookup_dictSet_self]
      | int n => simp [dictLookup_dictSet_self]
      | list xs => simp [dictLookup_dictSet_self]
      | sdk c => simp [dictLookup_dictSet_self]

/-- A concrete tool call with dict-valued arguments, for the C5 witness. -/
def tcC5 : ToolCallMsg :=
  { id := .str "call_1", type := .str "function",
    function := [("name", .str "getAlerts"), ("arguments", .dict [("state", .str "CA")])] }

/-- Witness for C5: the dict-valued arguments of `tcC5` are JSON-encoded. -/
theorem spec_c5_witness :
    dictLookup (sanitizeToolCall tcC5).function "arguments" =
      some (.str (pyJsonDumps (.dict [("state", .str "CA")]))) :=
  spec_c5.2.1 tcC5 [("state", .str "CA")] rfl

/-- C6 (amended): only *assistant* turns that carry no tool calls and whose
content is not a non-blank string are dropped by `sanitize_messages`; user
and tool turns are always forwarded, one sanitized entry each, whatever
their content.  (The unamended claim — that blank user and tool turns are
dropped too — is refuted by `spec_c6_cex`.) -/
theorem spec_c6 :
    (∀ (pre post : List Msg) (m : Msg),
        m.role = "assistant" → m.tool_calls = none →
        (∀ s, m.content = some (.str s) → pyStrip s = "") →
        sanitize_messages (pre ++ m :: post) =
          sanitize_messages pre ++ sanitize_messages post) ∧
    (∀ m : Msg, m.role = "user" → (sanitize_messages [m]).length = 1) ∧
    (∀ m : Msg, m.role = "tool" → (sanitize_messages [m]).length = 1) := by
  refine ⟨?_, ?_, ?_⟩
  · intro pre post m h1 h2 h3
    rw [show m :: post = [m] ++ post from rfl, sanitize_messages_append,
      sanitize_messages_append]
    have hdrop : sanitizeEntry m = [] := by
      unfold sanitizeEntry
      rw [h1, h2]
      simp only [reduceIte, reduceCtorEq]
      cases hc : m.content with
      | none => simp
      | some v =>
        cases v with
        | str s =>
          have := h3 s hc
          simp [this]
        | null => simp
        | bool b => simp
        | int n => simp
        | list xs => simp
        | dict fs => simp
        | sdk c => simp
    simp [sanitize_messages, hdrop]
  · intro m h
    simp [sanitize_messages, sanitizeEntry, h]
  · intro m h
    simp [sanitize_messages, sanitizeEntry, h]

/-- Witness for C6: a blank assistant turn between two empty segments is
dropped. -/
theorem spec_c6_witness :
    sanitize_messages ([] ++ ({ role := "assistant" } : Msg) :: []) =
      sanitize_messages [] ++ sanitize_messages [] :=
  spec_c6.1 [] [] { role := "assistant" } rfl rfl (fun _ hs => nomatch hs)

/-- Counterexample to C6 as stated: a user turn and a tool turn whose content
is the empty string are *not* dropped (each yields one sanitized entry),
while the same assistant turn is; so empty-content turns of role user and
tool do not disappear. -/
theorem spec_c6_cex :
    (sanitize_messages [{ role := "user", content := some (.str "") }]).length = 1 ∧
    (sanitize_messages [{ role := "tool", content := some (.str "") }]).length = 1 ∧
    (sanitize_messages [{ role := "assistant", content := some (.str "") }]).length = 0 := by
  exact ⟨rfl, rfl, rfl⟩

/-! ### Orchestration-loop lemmas (Groq adapter) -/

/-- The user turn seeding a `process_query` conversation
(`client.py` lines 60-65). -/
def userSeed (q : String) : Msg :=
  { role := "user", content := some (.str q) }

/-- `_process_with_groq` as invoked by `process_query` on a fresh query. -/
def groqQuery (q : String) (http : Nat → HttpOutcome) (loads : String → Except String JVal)
    (callTool : JVal → JVal → Except String MCPContent) : GroqRun :=
  processWithGroq [userSeed q] http loads callTool

/-- Total extraction of a tool-call name (defaulting to `null`). -/
def tcNameD (tc : JVal) : JVal :=
  match pyGet tc "function" with
  | .ok fn =>
    match pyGet fn "name" with
    | .ok nm => nm
    | .error _ => .null
  | .error _ => .null

/-- Total extraction of a tool-call arguments value (defaulting to `null`). -/
def tcArgsD (tc : JVal) : JVal :=
  match pyGet tc "function" with
  | .ok fn =>
    match pyGet fn "arguments" with
    | .ok a => a
    | .error _ => .null
  | .error _ => .null

/-- A well-formed tool-call entry of a provider reply: the `function` dict is
present with a `name` and dict-valued `arguments` (so `json.loads` is not
consulted), and an `id` is present. -/
def wfToolCall (tc : JVal) : Prop :=
  ∃ fn, pyGet tc "function" = .ok fn ∧
    (∃ nm, pyGet fn "name" = .ok nm) ∧
    (∃ d, pyGet fn "arguments" = .ok (.dict d)) ∧
    (∃ i, pyGet tc "id" = .ok i)

/-- `groqFollowUp` is total: it records exactly one more request, never
touches the tool trace, and appends at most one assistant turn. -/
theorem groqFollowUp_spec (http : Nat → HttpOutcome) (st : GState) :
    (groqFollowUp http st).toolsCalled = st.toolsCalled ∧
    (groqFollowUp http st).requests.length = st.requests.length + 1 ∧
    (∀ m ∈ (groqFollowUp http st).messages, m ∈ st.messages ∨ m.role = "assistant") := by
  unfold groqFollowUp
  dsimp only
  cases hx : http st.apiIdx with
  | transportError e =>
    refine ⟨rfl, ?_, fun m hm => Or.inl hm⟩
    simp
  | resp status statusMsg body =>
    dsimp only
    by_cases hs : 400 ≤ status
    · rw [if_pos hs]
      refine ⟨rfl, ?_, fun m hm => Or.inl hm⟩
      simp
    · rw [if_neg hs]
      cases body with
      | error e =>
        refine ⟨rfl, ?_, fun m hm => Or.inl hm⟩
        simp
      | ok data =>
        dsimp only
        cases hex : extractMessage data with
        | error e =>
          refine ⟨rfl, ?_, fun m hm => Or.inl hm⟩
          simp
        | ok rm =>
          dsimp only
          cases hpd : pyDictGet rm "content" .null with
          | error e =>
            refine ⟨rfl, ?_, fun m hm => Or.inl hm⟩
            simp
          | ok c =>
            refine ⟨rfl, by simp, ?_⟩
            intro m hm
            dsimp only at hm
            by_cases hc : truthy c
            · rw [if_pos hc] at hm
              rcases List.mem_append.mp hm with h | h
              · exact Or.inl h
              · simp only [List.mem_singleton] at h
                subst h
                exact Or.inr rfl
            · rw [if_neg hc] at hm
              rcases List.mem_append.mp hm with h | h
              · exact Or.inl h
              · simp only [List.mem_singleton] at h
                subst h
                exact Or.inr rfl

/-- One well-formed tool call with a successful dispatch advances the state
by one recorded invocation, one follow-up request, and only assistant/tool
turns. -/
theorem groqToolStep_ok (http : Nat → HttpOutcome) (loads : String → Except String JVal)
    (callTool : JVal → JVal → Except String MCPContent)
    (hct : ∀ n a, ∃ r, callTool n a = .ok r) (tc : JVal) (st : GState)
    (hwf : wfToolCall tc) :
    ∃ st', groqToolStep http loads callTool tc st = (st', none) ∧
      st'.toolsCalled = st.toolsCalled ++ [(tcNameD tc, tcArgsD tc)] ∧
      st'.requests.length = st.requests.length + 1 ∧
      (∀ m ∈ st'.messages, m ∈ st.messages ∨ m.role = "assistant" ∨ m.role = "tool") := by
  obtain ⟨fn, hfn, ⟨nm, hnm⟩, ⟨d, hd⟩, ⟨i, hi⟩⟩ := hwf
  obtain ⟨r, hr⟩ := hct nm (.dict d)
  have hname : tcNameD tc = nm := by
    unfold tcNameD
    rw [hfn]
    dsimp only
    rw [hnm]
  have hargsD : tcArgsD tc = .dict d := by
    unfold tcArgsD
    rw [hfn]
    dsimp only
    rw [hd]
  unfold groqToolStep
  rw [hfn]
  dsimp only
  rw [hnm]
  dsimp only
  rw [hd]
  dsimp only
  rw [hr]
  dsimp only
  rw [hi]
  dsimp only
  refine ⟨_, rfl, ?_, ?_, ?_⟩
  · rw [(groqFollowUp_spec http _).1]
    dsimp only
    rw [hname, hargsD]
  · rw [(groqFollowUp_spec http _).2.1]
  · intro m hm
    have hmem := (groqFollowUp_spec http _).2.2 m hm
    rcases hmem with h | h
    · dsimp only at h
      rcases List.mem_append.mp h with h2 | h2
      · rcases List.mem_append.mp h2 with h3 | h3
        · exact Or.inl h3
        · simp only [List.mem_singleton] at h3
          subst h3
          exact Or.inr (Or.inl rfl)
      · simp only [List.mem_singleton] at h2
        subst h2
        exact Or.inr (Or.inr rfl)
    · exact Or.inr (Or.inl h)

/-- The tool loop over a list of well-formed calls with an always-succeeding
dispatcher: one invocation and one follow-up request per call, and only
assistant/tool turns are appended. -/
theorem groqLoop_ok (http : Nat → HttpOutcome) (loads : String → Except String JVal)
    (callTool : JVal → JVal → Except String MCPContent)
    (hct : ∀ n a, ∃ r, callTool n a = .ok r) :
    ∀ (tcs : List JVal) (st : GState), (∀ tc ∈ tcs, wfToolCall tc) →
      ∃ st', groqLoop http loads callTool tcs st = (st', none) ∧
        st'.toolsCalled = st.toolsCalled ++ tcs.map (fun tc => (tcNameD tc, tcArgsD tc)) ∧
        st'.requests.length = st.requests.length + tcs.length ∧
        (∀ m ∈ st'.messages, m ∈ st.messages ∨ m.role = "assistant" ∨ m.role = "tool") := by
  intro tcs
  induction tcs with
  | nil =>
    intro st _
    exact ⟨st, rfl, by simp, rfl, fun m hm => Or.inl hm⟩
  | cons tc rest ih =>
    intro st hwf
    obtain ⟨st₁, hstep, htc₁, hreq₁, hmsg₁⟩ :=
      groqToolStep_ok http loads callTool hct tc st (hwf tc (List.mem_cons_self _ _))
    obtain ⟨st₂, hloop, htc₂, hreq₂, hmsg₂⟩ :=
      ih st₁ (fun t ht => hwf t (List.mem_cons_of_mem _ ht))
    refine ⟨st₂, ?_, ?_, ?_, ?_⟩
    · rw [groqLoop, hstep]
      dsimp only
      exact hloop
    · rw [htc₂, htc₁, List.map_cons, List.append_assoc]
      rfl
    · rw [hreq₂, hreq₁, List.length_cons]
      omega
    · intro m hm
      rcases hmsg₂ m hm with h | h
      · exact hmsg₁ m h
      · exact Or.inr h

/-- The displayed outcome of one `chat_loop` iteration (`client.py`
lines 495-507): the presented answer on success, or the `except` handler
output `"Error: ..."` when processing the query (or presenting it) raised. -/
def chatLoopDisplay (r : Except String String) (ltr : Option JVal) : String :=
  match r with
  | .error e => "Error: " ++ e
  | .ok t =>
    match present t ltr with
    | .ok d => d
    | .error e => "Error: " ++ e

/-- C1 (amended): only the *initial* reply drives the tool loop of
`_process_with_groq`.  Each well-formed tool call of the initial reply is
dispatched in order, and after *each* call (not after all of them) the
provider is re-queried once with the sanitized augmented message log; no new
user turn is ever appended; the run executes exactly the initial reply's
tool calls — tool calls contained in follow-up replies are never executed —
and the returned answer is the newline-join of the accumulated text
segments.  (The unamended claim — that the loop keeps executing tool calls
until a reply has none — is refuted by `spec_c1_cex`.) -/
theorem spec_c1 (q : String) (http : Nat → HttpOutcome) (loads : String → Except String JVal)
    (ct : JVal → JVal → Except String MCPContent)
    (status : Nat) (statusMsg : String) (data rm c : JVal) (tcs : List JVal)
    (h0 : http 0 = .resp status statusMsg (.ok data))
    (hstatus : status < 400)
    (hex : extractMessage data = .ok rm)
    (hcontent : pyDictGet rm "content" .null = .ok c)
    (htcv : pyDictGet rm "tool_calls" .null = .ok (.list tcs))
    (htcget : pyGet rm "tool_calls" = .ok (.list tcs))
    (hne : tcs ≠ [])
    (hwf : ∀ tc ∈ tcs, wfToolCall tc)
    (hct : ∀ n a, ∃ r, ct n a = .ok r) :
    (groqQuery q http loads ct).toolsCalled =
      tcs.map (fun tc => (tcNameD tc, tcArgsD tc)) ∧
    (groqQuery q http loads ct).requests.length = tcs.length + 1 ∧
    (∀ m ∈ (groqQuery q http loads ct).messages,
      m = userSeed q ∨ m.role = "assistant" ∨ m.role = "tool") ∧
    (groqQuery q http loads ct).result = pyJoinNewline (groqQuery q http loads ct).segments := by
  have htruthy : truthy (.list tcs) = true := by
    cases tcs with
    | nil => exact absurd rfl hne
    | cons a t => rfl
  have hiter : pyIter (.list tcs) = .ok tcs := rfl
  obtain ⟨st', hloop, htc', hreq', hmsg'⟩ :=
    groqLoop_ok http loads ct hct tcs
      { messages := [userSeed q],
        segments := if truthy c then [c] else [],
        apiIdx := 1,
        requests := [sanitize_messages [userSeed q]], toolsCalled := [] }
      hwf
  unfold groqQuery processWithGroq
  rw [h0]
  try dsimp only
  rw [if_neg (by omega)]
  rw [hex]
  try dsimp only
  rw [hcontent]
  try dsimp only
  rw [htcv]
  try dsimp only
  rw [if_pos htruthy]
  try dsimp only
  rw [htcget]
  try dsimp only
  rw [hiter]
  try dsimp only
  rw [hloop]
  dsimp only [GState.toRun]
  refine ⟨?_, ?_, ?_, ?_⟩
  · rw [htc']
    dsimp only
    rw [List.nil_append]
  · rw [hreq']
    dsimp only
    rw [List.length_singleton, Nat.add_comm]
  · intro m hm
    rcases hmsg' m hm with h | h
    · dsimp only at h
      simp only [List.mem_singleton] at h
      exact Or.inl h
    · exact Or.inr h
  · rfl

/-- A well-formed tool call requesting `getAlerts({"state": "CA"})`. -/
def tcAlertsCA : JVal :=
  .dict [("id", .str "call_1"), ("type", .str "function"),
         ("function", .dict [("name", .str "getAlerts"),
                             ("arguments", .dict [("state", .str "CA")])])]

/-- Initial Groq reply body: no content, one tool call (`tcAlertsCA`). -/
def groqReply1 : JVal :=
  .dict [("choices", .list [.dict [("message",
    .dict [("tool_calls", .list [tcAlertsCA])])]])]

/-- Follow-up Groq reply body with plain text and no tool calls. -/
def groqReplyText : JVal :=
  .dict [("choices", .list [.dict [("message",
    .dict [("content", .str "All done")])]])]

/-- The tool calls of the scripted *follow-up* reply used by the C1
counterexample. -/
def followUpToolCalls : List JVal :=
  [.dict [("id", .str "call_2"), ("type", .str "function"),
          ("function", .dict [("name", .str "getForecast"),
                              ("arguments", .dict [])])]]

/-- Follow-up Groq reply body carrying text *and* a further tool call. -/
def groqReplyMore : JVal :=
  .dict [("choices", .list [.dict [("message",
    .dict [("content", .str "Follow-up text"),
           ("tool_calls", .list followUpToolCalls)])]])]

/-- Scripted provider: initial reply `groqReply1`, then `groqReplyText`. -/
def httpScript1 : Nat → HttpOutcome := fun n =>
  if n = 0 then .resp 200 "" (.ok groqReply1) else .resp 200 "" (.ok groqReplyText)

/-- Scripted provider: initial reply `groqReply1`, then `groqReplyMore`
(whose tool call should, per the unamended C1, be executed too). -/
def httpScript2 : Nat → HttpOutcome := fun n =>
  if n = 0 then .resp 200 "" (.ok groqReply1) else .resp 200 "" (.ok groqReplyMore)

/-- A `json.loads` oracle that always fails (never consulted on the
dict-argument paths exercised here). -/
def loadsNone : String → Except String JVal := fun _ => .error "loads not consulted"

/-- A tool dispatcher that always succeeds with a single text block. -/
def ctOk : JVal → JVal → Except String MCPContent := fun _ _ => .ok (.textObj "alert text")

/-- A tool dispatcher that always raises. -/
def ctBoom : JVal → JVal → Except String MCPContent := fun _ _ => .error "McpError: boom"

/-- Witness for C1 on the scripted one-tool-call run. -/
theorem spec_c1_witness :
    (groqQuery "alerts in CA" httpScript1 loadsNone ctOk).toolsCalled =
      [tcAlertsCA].map (fun tc => (tcNameD tc, tcArgsD tc)) ∧
    (groqQuery "alerts in CA" httpScript1 loadsNone ctOk).requests.length = 2 := by
  have h := spec_c1 "alerts in CA" httpScript1 loadsNone ctOk 200 "" groqReply1
    (.dict [("tool_calls", .list [tcAlertsCA])]) .null [tcAlertsCA]
    rfl (by omega) rfl rfl rfl rfl (by simp)
    (by
      intro tc htc
      simp only [List.mem_singleton] at htc
      subst htc
      exact ⟨_, rfl, ⟨_, rfl⟩, ⟨_, rfl⟩, ⟨_, rfl⟩⟩)
    (fun n a => ⟨_, rfl⟩)
  exact ⟨h.1, h.2.1⟩

/-- Counterexample to C1 as stated: with `httpScript2` the follow-up reply
still contains one tool call, yet the run completes (reaches `Done`) having
executed only the single tool call of the initial reply and made only one
follow-up request; the follow-up's tool call is never dispatched. -/
theorem spec_c1_cex :
    (groqQuery "alerts in CA" httpScript2 loadsNone ctOk).result =
      .ok ("[Calling tool getAlerts with args \x7b\x27state\x27: \x27CA\x27\x7d]" ++
        "\n" ++ "Follow-up text") ∧
    (groqQuery "alerts in CA" httpScript2 loadsNone ctOk).toolsCalled.length = 1 ∧
    followUpToolCalls.length = 1 := by
  exact ⟨rfl, rfl, rfl⟩

/-- C3 (amended): when the dispatch of a requested tool call raises, the
exception propagates uncaught out of `_process_with_groq`: the run aborts
with that error, no tool turn (indeed no turn at all) is appended to the
message log, and no follow-up request is made; the outer interactive loop
catches it and prints `"Error: ..."`, so the process survives but the query
is aborted.  (The unamended claim — that a best-effort tool turn is appended
and the loop continues — is refuted by `spec_c3_cex`.) -/
theorem spec_c3 (msgs : List Msg) (http : Nat → HttpOutcome)
    (loads : String → Except String JVal) (ct : JVal → JVal → Except String MCPContent)
    (status : Nat) (statusMsg : String) (data rm c fn nm : JVal)
    (d : List (String × JVal)) (tc : JVal) (rest : List JVal) (e : String)
    (h0 : http 0 = .resp status statusMsg (.ok data))
    (hstatus : status < 400)
    (hex : extractMessage data = .ok rm)
    (hcontent : pyDictGet rm "content" .null = .ok c)
    (htcv : pyDictGet rm "tool_calls" .null = .ok (.list (tc :: rest)))
    (htcget : pyGet rm "tool_calls" = .ok (.list (tc :: rest)))
    (hfn : pyGet tc "function" = .ok fn)
    (hnm : pyGet fn "name" = .ok nm)
    (hargs : pyGet fn "arguments" = .ok (.dict d))
    (hfail : ct nm (.dict d) = .error e) :
    (processWithGroq msgs http loads ct).result = .error e ∧
    (processWithGroq msgs http loads ct).messages = msgs ∧
    (processWithGroq msgs http loads ct).requests.length = 1 ∧
    (processWithGroq msgs http loads ct).toolsCalled = [(nm, .dict d)] ∧
    chatLoopDisplay (processWithGroq msgs http loads ct).result
      (lastToolScan (processWithGroq msgs http loads ct).messages) = "Error: " ++ e := by
  unfold processWithGroq
  rw [h0]
  try dsimp only
  rw [if_neg (by omega)]
  rw [hex]
  try dsimp only
  rw [hcontent]
  try dsimp only
  rw [htcv]
  try dsimp only
  rw [show truthy (.list (tc :: rest)) = true from rfl]
  try dsimp only
  rw [htcget]
  try dsimp only
  rw [show pyIter (.list (tc :: rest)) = .ok (tc :: rest) from rfl]
  try dsimp only
  rw [groqLoop]
  unfold groqToolStep
  rw [hfn]
  try dsimp only
  rw [hnm]
  try dsimp only
  rw [hargs]
  try dsimp only
  rw [hfail]
  try dsimp only
  exact ⟨rfl, rfl, rfl, rfl, rfl⟩

/-- Witness for C3 on the scripted failing dispatcher. -/
theorem spec_c3_witness :
    (processWithGroq [userSeed "hi"] httpScript1 loadsNone ctBoom).result =
      .error "McpError: boom" ∧
    (processWithGroq [userSeed "hi"] httpScript1 loadsNone ctBoom).messages = [userSeed "hi"] := by
  have h := spec_c3 [userSeed "hi"] httpScript1 loadsNone ctBoom 200 "" groqReply1
    (.dict [("tool_calls", .list [tcAlertsCA])]) .null
    (.dict [("name", .str "getAlerts"), ("arguments", .dict [("state", .str "CA")])])
    (.str "getAlerts") [("state", .str "CA")] tcAlertsCA [] "McpError: boom"
    rfl (by omega) rfl rfl rfl rfl rfl rfl rfl rfl
  exact ⟨h.1, h.2.1⟩

/-- Counterexample to C3 as stated: a failing tool dispatch aborts the whole
run (the result is the uncaught exception), appends no tool turn, and
triggers no follow-up request — nothing best-effort is recorded. -/
theorem spec_c3_cex :
    (processWithGroq [userSeed "hi"] httpScript1 loadsNone ctBoom).result =
      .error "McpError: boom" ∧
    ((processWithGroq [userSeed "hi"] httpScript1 loadsNone ctBoom).messages.filter
      (fun m => m.role = "tool")) = [] ∧
    (processWithGroq [userSeed "hi"] httpScript1 loadsNone ctBoom).requests.length = 1 := by
  exact ⟨rfl, rfl, rfl⟩

/-- C4: each of the four listed provider-failure kinds — transport error,
non-2xx status, and empty or malformed body (both of which make
`response.json()` raise) — is converted by the initial `try/except` of
`_process_with_groq` into a normally returned single text segment starting
with `"Sorry, I encountered an error"`: no tool is dispatched, no message is
appended, exactly the one (failed) request is made, and the run ends on that
single round without an uncaught exception. -/
theorem spec_c4 (msgs : List Msg) (http : Nat → HttpOutcome)
    (loads : String → Except String JVal) (ct : JVal → JVal → Except String MCPContent) :
    (∀ e, http 0 = .transportError e →
      ∃ s, (processWithGroq msgs http loads ct).result = .ok s ∧
        pyStartsWith s "Sorry, I encountered an error" = true ∧
        (processWithGroq msgs http loads ct).toolsCalled = [] ∧
        (processWithGroq msgs http loads ct).requests.length = 1 ∧
        (processWithGroq msgs http loads ct).messages = msgs) ∧
    (∀ status statusMsg body, http 0 = .resp status statusMsg body → 400 ≤ status →
      ∃ s, (processWithGroq msgs http loads ct).result = .ok s ∧
        pyStartsWith s "Sorry, I encountered an error" = true ∧
        (processWithGroq msgs http loads ct).toolsCalled = [] ∧
        (processWithGroq msgs http loads ct).requests.length = 1 ∧
        (processWithGroq msgs http loads ct).messages = msgs) ∧
    (∀ status statusMsg e, http 0 = .resp status statusMsg (.error e) → status < 400 →
      ∃ s, (processWithGroq msgs http loads ct).result = .ok s ∧
        pyStartsWith s "Sorry, I encountered an error" = true ∧
        (processWithGroq msgs http loads ct).toolsCalled = [] ∧
        (processWithGroq msgs http loads ct).requests.length = 1 ∧
        (processWithGroq msgs http loads ct).messages = msgs) := by
  refine ⟨?_, ?_, ?_⟩
  · intro e h0
    refine ⟨"Sorry, I encountered an error when connecting to Groq API: " ++ e, ?_, ?_, ?_, ?_, ?_⟩
    · unfold processWithGroq
      rw [h0]
      rfl
    · exact pyStartsWith_append_left _ _ _ (by decide)
    · unfold processWithGroq
      rw [h0]
      rfl
    · unfold processWithGroq
      rw [h0]
      rfl
    · unfold processWithGroq
      rw [h0]
      rfl
  · intro status statusMsg body h0 hs
    refine ⟨"Sorry, I encountered an error when connecting to Groq API: " ++ statusMsg,
      ?_, ?_, ?_, ?_, ?_⟩
    · unfold processWithGroq
      rw [h0]
      dsimp only
      rw [if_pos hs]
      rfl
    · exact pyStartsWith_append_left _ _ _ (by decide)
    · unfold processWithGroq
      rw [h0]
      dsimp only
      rw [if_pos hs]
      rfl
    · unfold processWithGroq
      rw [h0]
      dsimp only
      rw [if_pos hs]
      rfl
    · unfold processWithGroq
      rw [h0]
      dsimp only
      rw [if_pos hs]
      rfl
  · intro status statusMsg e h0 hs
    refine ⟨"Sorry, I encountered an error parsing the response from Groq API: " ++ e,
      ?_, ?_, ?_, ?_, ?_⟩
    · unfold processWithGroq
      rw [h0]
      dsimp only
      rw [if_neg (by omega)]
      rfl
    · exact pyStartsWith_append_left _ _ _ (by decide)
    · unfold processWithGroq
      rw [h0]
      dsimp only
      rw [if_neg (by omega)]
      rfl
    · unfold processWithGroq
      rw [h0]
      dsimp only
      rw [if_neg (by omega)]
      rfl
    · unfold processWithGroq
      rw [h0]
      dsimp only
      rw [if_neg (by omega)]
      rfl

/-- Scripted provider whose only behaviour is a transport failure. -/
def httpDown : Nat → HttpOutcome := fun _ => .transportError "Connection refused"

/-- Witness for C4 on the transport-failure script. -/
theorem spec_c4_witness :
    ∃ s, (processWithGroq [userSeed "hi"] httpDown loadsNone ctOk).result = .ok s ∧
      pyStartsWith s "Sorry, I encountered an error" = true ∧
      (processWithGroq [userSeed "hi"] httpDown loadsNone ctOk).toolsCalled = [] ∧
      (processWithGroq [userSeed "hi"] httpDown loadsNone ctOk).requests.length = 1 ∧
      (processWithGroq [userSeed "hi"] httpDown loadsNone ctOk).messages = [userSeed "hi"] :=
  (spec_c4 [userSeed "hi"] httpDown loadsNone ctOk).1 "Connection refused" rfl

/-! ### Anthropic-adapter lemmas (C9) -/

/-- Every turn appended for a tool-use block has role user or assistant. -/
theorem claudeAppended_roles (textAttr : Option String) (content : MCPContent) :
    ∀ m ∈ claudeAppended textAttr content, m.role = "user" ∨ m.role = "assistant" := by
  intro m hm
  unfold claudeAppended at hm
  rcases List.mem_append.mp hm with h | h
  · cases textAttr with
    | none => simp at h
    | some t =>
      dsimp only at h
      by_cases ht : t ≠ ""
      · rw [if_pos ht] at h
        simp only [List.mem_singleton] at h
        subst h
        exact Or.inr rfl
      · rw [if_neg ht] at h
        simp at h
  · simp only [List.mem_singleton] at h
    subst h
    exact Or.inl rfl

/-- One block step of `_process_with_claude` appends only user or assistant
turns. -/
theorem claudeBlockStep_roles (api : Nat → Except String (List CBlock))
    (ct : JVal → JVal → Except String MCPContent) (b : CBlock) (st : CState) :
    ∀ m ∈ (claudeBlockStep api ct b st).1.messages,
      m ∈ st.messages ∨ m.role = "user" ∨ m.role = "assistant" := by
  unfold claudeBlockStep
  cases b with
  | text t => exact fun m hm => Or.inl hm
  | toolUse name input textAttr =>
    dsimp only
    cases hr : ct (.str name) input with
    | error e => exact fun m hm => Or.inl hm
    | ok content =>
      dsimp only
      intro m hm
      rcases List.mem_append.mp hm with h | h
      · exact Or.inl h
      · exact Or.inr (claudeAppended_roles textAttr content m h)

/-- The block loop of `_process_with_claude` appends only user or assistant
turns, whether or not it aborts on a dispatch failure. -/
theorem claudeLoop_roles (api : Nat → Except String (List CBlock))
    (ct : JVal → JVal → Except String MCPContent) :
    ∀ (blocks : List CBlock) (st : CState),
      ∀ m ∈ (claudeLoop api ct blocks st).1.messages,
        m ∈ st.messages ∨ m.role = "user" ∨ m.role = "assistant" := by
  intro blocks
  induction blocks with
  | nil => exact fun st m hm => Or.inl hm
  | cons b rest ih =>
    intro st m hm
    rw [claudeLoop] at hm
    cases hstep : claudeBlockStep api ct b st with
    | mk st₁ err =>
      rw [hstep] at hm
      cases err with
      | some e =>
        dsimp only at hm
        have := claudeBlockStep_roles api ct b st m
        rw [hstep] at this
        exact this hm
      | none =>
        dsimp only at hm
        rcases ih st₁ m hm with h | h
        · have := claudeBlockStep_roles api ct b st m
          rw [hstep] at this
          exact this h
        · exact Or.inr h

/-- C9: `_process_with_claude` appends tool results as `"user"` turns, never
as `"tool"` turns — for *every* scripted API, dispatcher and query, the final
message log contains only user/assistant roles, so the `process_query` scan
for the most recent `"tool"` turn returns `None`, and the presentation
fallback that substitutes the last tool result can never fire for this
provider (the displayed answer is always the cleaned text). -/
theorem spec_c9 (q : String) (api : Nat → Except String (List CBlock))
    (ct : JVal → JVal → Except String MCPContent) :
    (∀ m ∈ (processWithClaude [userSeed q] api ct).messages,
      m.role = "user" ∨ m.role = "assistant") ∧
    lastToolScan (processWithClaude [userSeed q] api ct).messages = none ∧
    (∀ resp, present resp (lastToolScan (processWithClaude [userSeed q] api ct).messages) =
      .ok (pyStrip (removeToolCallLines resp))) := by
  have hroles : ∀ m ∈ (processWithClaude [userSeed q] api ct).messages,
      m.role = "user" ∨ m.role = "assistant" := by
    intro m hm
    unfold processWithClaude at hm
    cases h0 : api 0 with
    | error e =>
      rw [h0] at hm
      dsimp only at hm
      simp only [List.mem_singleton] at hm
      subst hm
      exact Or.inl rfl
    | ok blocks =>
      rw [h0] at hm
      dsimp only at hm
      cases hloop : claudeLoop api ct blocks
          { messages := [userSeed q], segments := [], apiIdx := 1, toolsCalled := [] } with
      | mk st' err =>
        have hmem : m ∈ st'.messages := by
          cases err with
          | some e =>
            rw [hloop] at hm
            exact hm
          | none =>
            rw [hloop] at hm
            exact hm
        have := claudeLoop_roles api ct blocks
          { messages := [userSeed q], segments := [], apiIdx := 1, toolsCalled := [] } m
        rw [hloop] at this
        rcases this hmem with h | h
        · simp only [List.mem_singleton] at h
          subst h
          exact Or.inl rfl
        · exact h
  have hscan : lastToolScan (processWithClaude [userSeed q] api ct).messages = none := by
    unfold lastToolScan
    have hfind : ((processWithClaude [userSeed q] api ct).messages.reverse.find?
        (fun m => m.role = "tool")) = none := by
      rw [List.find?_eq_none]
      intro m hm
      rcases hroles m (List.mem_reverse.mp hm) with h | h
      · simp [h]
      · simp [h]
    rw [hfind]
  refine ⟨hroles, hscan, ?_⟩
  intro resp
  rw [hscan]
  rfl

/-- A scripted Anthropic reply: one tool-use block, then a plain follow-up. -/
def apiClaudeScript : Nat → Except String (List CBlock) := fun n =>
  if n = 0 then .ok [.toolUse "getAlerts" (.dict [("state", .str "CA")]) none]
  else .ok [.text "All done"]

/-- Witness for C9 on a concrete scripted run. -/
theorem spec_c9_witness :
    lastToolScan (processWithClaude [userSeed "alerts in CA"] apiClaudeScript ctOk).messages =
      none :=
  (spec_c9 "alerts in CA" apiClaudeScript ctOk).2.1

/-! ### Presentation lemmas (C7) -/

/-- Characterization of the scanner for the first regex branch. -/
theorem tuScan_iff (l : List Char) :
    tuScan l = true ↔ ∃ a y, l = a ++ '>' :: (y ++ tuPost) := by
  induction l with
  | nil =>
    simp only [tuScan]
    constructor
    · intro h
      exact absurd h (by decide)
    · rintro ⟨a, y, ha⟩
      cases a <;> simp at ha
  | cons c t ih =>
    rw [tuScan, Bool.or_eq_true, Bool.and_eq_true, decide_eq_true_iff, ih,
      List.isSuffixOf_iff_suffix]
    constructor
    · rintro (⟨hc, hy⟩ | ⟨a, y, hay⟩)
      · obtain ⟨y, hy⟩ := hy
        exact ⟨[], y, by rw [hc]; simp [← hy]⟩
      · exact ⟨c :: a, y, by rw [hay]; rfl⟩
    · rintro ⟨a, y, hay⟩
      cases a with
      | nil =>
        left
        simp only [List.nil_append, List.cons.injEq] at hay
        exact ⟨hay.1, ⟨y, hay.2.symm⟩⟩
      | cons a0 a' =>
        right
        simp only [List.cons_append, List.cons.injEq] at hay
        exact ⟨a', y, hay.2⟩

/-- Decompose a list along its whitespace prefix. -/
theorem exists_dropWhile_decomp (p : Char → Bool) (l : List Char) :
    ∃ w, (∀ c ∈ w, p c = true) ∧ l = w ++ l.dropWhile p :=
  ⟨l.takeWhile p, fun _ hc => List.mem_takeWhile_imp hc,
    (List.takeWhile_append_dropWhile p l).symm⟩

/-- Dropping a satisfied prefix. -/
theorem dropWhile_append_of_forall (p : Char → Bool) (w r : List Char)
    (hw : ∀ c ∈ w, p c = true) : (w ++ r).dropWhile p = r.dropWhile p := by
  induction w with
  | nil => rfl
  | cons c w' ih =>
    rw [List.cons_append, List.dropWhile_cons, hw c (List.mem_cons_self _ _)]
    exact ih (fun c hc => hw c (List.mem_cons_of_mem _ hc))

/-- The declarative language of the tool-use placeholder regex
`^<tool-use.*?>.*?</tool-use>$|^<tool-use\s*/?>$` over a full (stripped)
string: either `<tool-use`, anything, `>`, anything, `</tool-use>`, or
`<tool-use`, whitespace, an optional `/`, and `>`. -/
def isToolUsePlaceholder (s : String) : Prop :=
  (∃ x y : List Char, s.data = tuPre ++ (x ++ ('>' :: (y ++ tuPost)))) ∨
  (∃ w : List Char, (∀ c ∈ w, isPyWs c = true) ∧
    (s.data = tuPre ++ (w ++ ['>']) ∨ s.data = tuPre ++ (w ++ ['/', '>'])))

/-- The executable matcher recognizes exactly the declarative language. -/
theorem toolUseMatch_iff (s : String) : toolUseMatch s = true ↔ isToolUsePlaceholder s := by
  unfold toolUseMatch isToolUsePlaceholder
  rw [Bool.and_eq_true, List.isPrefixOf_iff_prefix, Bool.or_eq_true, Bool.or_eq_true,
    beq_iff_eq, beq_iff_eq]
  constructor
  · rintro ⟨⟨r, hr⟩, hcase⟩
    have hdrop : s.data.drop 9 = r := by
      rw [← hr]
      exact List.drop_left tuPre r
    rw [hdrop] at hcase
    rcases hcase with hscan | hws
    · obtain ⟨a, y, hay⟩ := (tuScan_iff r).mp hscan
      exact Or.inl ⟨a, y, by rw [← hr, hay]⟩
    · obtain ⟨w, hw, hwr⟩ := exists_dropWhile_decomp isPyWs r
      rcases hws with h1 | h1
      · exact Or.inr ⟨w, hw, Or.inl (by rw [← hr, hwr, h1])⟩
      · exact Or.inr ⟨w, hw, Or.inr (by rw [← hr, hwr, h1])⟩
  · intro hlang
    rcases hlang with ⟨x, y, hxy⟩ | ⟨w, hw, hcase⟩
    · refine ⟨⟨_, hxy.symm⟩, ?_⟩
      have hdrop : s.data.drop 9 = x ++ ('>' :: (y ++ tuPost)) := by
        rw [hxy]
        exact List.drop_left tuPre _
      rw [hdrop]
      exact Or.inl ((tuScan_iff _).mpr ⟨x, y, rfl⟩)
    · rcases hcase with h1 | h1
      · refine ⟨⟨_, h1.symm⟩, ?_⟩
        have hdrop : s.data.drop 9 = w ++ ['>'] := by
          rw [h1]
          exact List.drop_left tuPre _
        rw [hdrop]
        right
        left
        rw [dropWhile_append_of_forall isPyWs w _ hw]
        decide
      · refine ⟨⟨_, h1.symm⟩, ?_⟩
        have hdrop : s.data.drop 9 = w ++ ['/', '>'] := by
          rw [h1]
          exact List.drop_left tuPre _
        rw [hdrop]
        right
        right
        rw [dropWhile_append_of_forall isPyWs w _ hw]
        decide

instance instDecidableIsToolUsePlaceholder (s : String) : Decidable (isToolUsePlaceholder s) :=
  decidable_of_iff (toolUseMatch s = true) (toolUseMatch_iff s)

/-- Presentation of one completed answer, phrased from the amended C7 claim:
drop the tool-call-announcement lines, and when the stripped, lowercased
remainder is empty or is exactly a recognized tool-use placeholder tag
(`isToolUsePlaceholder`) and the most recent tool result exists and is
truthy, display its raw content behind the fixed `"[Tool Result] "` label
(a non-string value cannot be concatenated and raises); otherwise display
the stripped remainder. -/
def specPresent (resp : String) (ltr : Option JVal) : Except String String :=
  let kept := (pySplitlines resp).filter (fun l => !pyStartsWith l "[Calling tool ")
  let cleaned := String.intercalate "\n" kept
  let norm := pyLower (pyStrip cleaned)
  match ltr with
  | none => .ok (pyStrip cleaned)
  | some v =>
    if (norm = "" ∨ isToolUsePlaceholder norm) ∧ truthy v = true then
      match v with
      | .str s => .ok ("[Tool Result] " ++ s)
      | _ => .error "TypeError: can only concatenate str"
    else .ok (pyStrip cleaned)

/-- Replace a boolean `ite` condition by an equivalent propositional one. -/
theorem ite_cond_congr {α : Type} (b : Bool) (P : Prop) [Decidable P]
    (h : b = true ↔ P) (x y : α) : (if b then x else y) = (if P then x else y) := by
  by_cases hp : P
  · rw [if_pos (h.mpr hp), if_pos hp]
  · rw [if_neg (fun hb => hp (h.mp hb)), if_neg hp]

/-- The boolean display condition of `present` against its declarative
counterpart. -/
theorem presentCond_iff (cs : String) (v : JVal) :
    ((cs = "" || toolUseMatch cs) && truthy v) = true ↔
      ((cs = "" ∨ isToolUsePlaceholder cs) ∧ truthy v = true) := by
  rw [Bool.and_eq_true, Bool.or_eq_true, decide_eq_true_iff, toolUseMatch_iff]

/-- C7 (amended): the code-level presentation (`present`, translated from
`chat_loop` lines 496-504) coincides with the claim-level description
(`specPresent`): marker lines are removed (second conjunct: every kept line
fails the marker test), and the raw content of the most recent tool result —
prefixed by the fixed `"[Tool Result] "` label — is substituted exactly when
the remainder is empty or a recognized placeholder tag *and* that tool
result is a non-empty (truthy) value.  (The unamended claim — substitution
of the bare raw content whenever a most recent tool result merely exists —
is refuted by `spec_c7_cex`.) -/
theorem spec_c7 (resp : String) (ltr : Option JVal) :
    present resp ltr = specPresent resp ltr ∧
    (∀ l ∈ (pySplitlines resp).filter (fun l => !pyStartsWith l "[Calling tool "),
      pyStartsWith l "[Calling tool " = false) := by
  constructor
  · cases ltr with
    | none => rfl
    | some v =>
      unfold present specPresent removeToolCallLines
      dsimp only
      exact ite_cond_congr _ _ (presentCond_iff _ v) _ _
  · intro l hl
    have := (List.mem_filter.mp hl).2
    simpa using this

/-- Witness for C7: the marker line is removed and the remaining text is
displayed unchanged. -/
theorem spec_c7_witness :
    present "[Calling tool getAlerts with args x]\nanswer" (some (.str "t")) =
      specPresent "[Calling tool getAlerts with args x]\nanswer" (some (.str "t")) ∧
    pyStartsWith "answer" "[Calling tool " = false :=
  ⟨(spec_c7 "[Calling tool getAlerts with args x]\nanswer" (some (.str "t"))).1,
   (spec_c7 "[Calling tool getAlerts with args x]\nanswer" (some (.str "t"))).2
     "answer" (by decide)⟩

/-- Counterexample to C7 as stated: with output consisting solely of the
placeholder tag `<tool-use/>` and most recent tool result `"hello"`, the
displayed answer is `"[Tool Result] hello"`, not the bare raw content; and
with an existing but *empty* tool result, no substitution happens at all —
the placeholder tag itself is displayed. -/
theorem spec_c7_cex :
    present "<tool-use/>" (some (.str "hello")) = .ok "[Tool Result] hello" ∧
    "[Tool Result] hello" ≠ "hello" ∧
    present "<tool-use/>" (some (.str "")) = .ok "<tool-use/>" := by
  refine ⟨rfl, by decide, rfl⟩

end Weatherbot
